import Mathlib

/-!
Verification development for the FinVault adaptive-authentication core.

The Python sources under `backend/app` are shallowly embedded: dictionaries
become structures of `Option` fields, Python floats become `ℚ`, machine-level
transcendental functions (haversine via `sin`/`cos`, SHA-256, float square
root) are passed as explicit function parameters, and fallible code returns
`Except`.  The embedded functions keep the source names where Lean allows it.
-/

namespace FinVault

/-- Model of a dynamically typed Python value, restricted to the shapes the
risk engine's challenge-data fields can carry. -/
inductive PyVal where
  | vnone
  | vbool (b : Bool)
  | vnum  (q : ℚ)
  | vstr  (s : String)
  | vlist (l : List PyVal)

/-- Python truthiness for the modelled values. -/
def PyVal.truthy : PyVal → Bool
  | .vnone => false
  | .vbool b => b
  | .vnum q => q != 0
  | .vstr s => s ≠ ""
  | .vlist l => !l.isEmpty

/-- Truthiness of an optional string (absent and the empty string are falsy,
as in Python). -/
def strTruthy : Option String → Bool
  | some s => s ≠ ""
  | none => false

/-- Python `str.strip()` on whitespace (an executable model of
`String.trim`). -/
def pyStrip (s : String) : String :=
  String.mk (((s.toList.dropWhile Char.isWhitespace).reverse.dropWhile
    Char.isWhitespace).reverse)

/-- Python `str.lower()` (ASCII case folding suffices for the embedded data). -/
def pyLower (s : String) : String := String.mk (s.toList.map Char.toLower)

/-- Python `str.upper()`. -/
def pyUpper (s : String) : String := String.mk (s.toList.map Char.toUpper)

/-- Splitter on a nonempty separator (an executable model of
`String.splitOn`; fuel-structured for kernel evaluation). -/
def splitOnListAux (sep : List Char) : ℕ → List Char → List Char → List (List Char)
  | 0, _, acc => [acc.reverse]
  | fuel + 1, cs, acc =>
    if sep.isPrefixOf cs ∧ sep ≠ [] then
      acc.reverse :: splitOnListAux sep fuel (cs.drop sep.length) []
    else match cs with
      | [] => [acc.reverse]
      | c :: rest => splitOnListAux sep fuel rest (c :: acc)

/-- Python `s.split(sep)` / `String.splitOn` semantics. -/
def strSplitOn (s sep : String) : List String :=
  if sep = "" then [s]
  else (splitOnListAux sep.toList (s.toList.length + 1) s.toList []).map String.mk

/-- Python `str.startswith`. -/
def strStartsWith (s pre : String) : Bool := pre.toList.isPrefixOf s.toList

/-- Lexicographic comparison of character lists by code point. -/
def strLtList : List Char → List Char → Bool
  | [], [] => false
  | [], _ :: _ => true
  | _ :: _, [] => false
  | a :: as, b :: bs =>
    if a.toNat < b.toNat then true
    else if a.toNat = b.toNat then strLtList as bs else false

/-- Lexicographic string comparison (the ordering Mongo applies to the
`YYYY-MM-DD` day strings and ISO timestamps). -/
def strLt (a b : String) : Bool := strLtList a.toList b.toList

/-- Reflexive lexicographic comparison. -/
def strLe (a b : String) : Bool := a == b || strLt a b

/-- Python `str.capitalize()`: first character upper-cased, the rest
lower-cased. -/
def pyCapitalize (s : String) : String :=
  match s.toList with
  | [] => ""
  | c :: rest => String.mk (c.toUpper :: rest.map Char.toLower)

/-- Python substring containment `needle in hay`. -/
def strContains (hay needle : String) : Bool :=
  (hay.toList.tails).any fun t => needle.toList.isPrefixOf t

/-- Python `round()` on a rational: round half to even. -/
def roundHalfEven (q : ℚ) : ℤ :=
  let f : ℤ := ⌊q⌋
  let r : ℚ := q - (f : ℚ)
  if r < 1/2 then f
  else if r > 1/2 then f + 1
  else if f % 2 = 0 then f else f + 1

/-- Python `int()` on a float: truncation toward zero. -/
def pyTrunc (q : ℚ) : ℤ :=
  if q < 0 then -(⌊-q⌋) else ⌊q⌋

/-- Python `x or 0` for a float `x`: the identity except that falsy `0.0`
maps to `0`. -/
def orZero (q : ℚ) : ℚ := if q = 0 then 0 else q

/-- Digits of a natural number, most significant first. -/
def natDigits (n : ℕ) : List Char :=
  (Nat.toDigits 10 n)

/-- Decimal rendering of a natural number. -/
def natStr (n : ℕ) : String := String.mk (natDigits n)

/-- Decimal rendering of an integer. -/
def intStr (z : ℤ) : String :=
  if z < 0 then "-" ++ natStr z.natAbs else natStr z.natAbs

/-- Python fixed-point float formatting `f"{q:.prec f}"` for the nonnegative
rationals the reason strings carry (round half to even). -/
def formatFixed (prec : ℕ) (q : ℚ) : String :=
  let n : ℤ := roundHalfEven (q * (10 : ℚ) ^ prec)
  let a : ℕ := n.natAbs
  let sign : String := if n < 0 then "-" else ""
  if prec = 0 then sign ++ natStr a
  else
    let ds := natDigits a
    let ds := if ds.length < prec + 1 then List.replicate (prec + 1 - ds.length) '0' ++ ds else ds
    let ipart := ds.take (ds.length - prec)
    let fpart := ds.drop (ds.length - prec)
    sign ++ String.mk ipart ++ "." ++ String.mk fpart

/-- Parse of a decimal digit character. -/
def digitVal (c : Char) : Option ℕ :=
  if c.isDigit then some (c.toNat - '0'.toNat) else none

/-- Value of a nonempty all-digit character list. -/
def digitsVal : List Char → Option ℕ
  | [] => none
  | cs => if cs.all Char.isDigit then
      some (cs.foldl (fun a c => a * 10 + (c.toNat - '0'.toNat)) 0)
    else none

/-- Parse of a hexadecimal digit character. -/
def hexVal (c : Char) : Option ℕ :=
  if c.isDigit then some (c.toNat - '0'.toNat)
  else if 'a' ≤ c ∧ c ≤ 'f' then some (c.toNat - 'a'.toNat + 10)
  else if 'A' ≤ c ∧ c ≤ 'F' then some (c.toNat - 'A'.toNat + 10)
  else none

/-- Model of Python `float(s)` on a string: optional sign and a decimal
literal `digits [ . digits ]` or `. digits`, with surrounding whitespace
allowed.  Returns `none` where CPython raises `ValueError`. -/
def parsePyFloat (s : String) : Option ℚ :=
  let cs := (pyStrip s).toList
  let (sign, cs) := match cs with
    | '-' :: rest => ((-1 : ℚ), rest)
    | '+' :: rest => ((1 : ℚ), rest)
    | rest => ((1 : ℚ), rest)
  let ipart := cs.takeWhile Char.isDigit
  let rest := cs.dropWhile Char.isDigit
  match rest with
  | [] =>
    if ipart.isEmpty then none
    else (digitsVal ipart).map fun n => sign * n
  | '.' :: frac =>
    if frac.all Char.isDigit ∧ ¬(ipart.isEmpty ∧ frac.isEmpty) then
      let iv : ℕ := (digitsVal ipart).getD 0
      let fv : ℕ := (digitsVal frac).getD 0
      some (sign * ((iv : ℚ) + (fv : ℚ) / (10 : ℚ) ^ frac.length))
    else none
  | _ => none

/-- Python `float(x)` over a dynamic value: numbers pass through, booleans
coerce, numeric strings parse, everything else raises. -/
def pyFloat : PyVal → Except String ℚ
  | .vnum q => .ok q
  | .vbool b => .ok (if b then 1 else 0)
  | .vstr s =>
    match parsePyFloat s with
    | some q => .ok q
    | none => .error "ValueError: could not convert string to float"
  | .vnone => .error "TypeError: float() argument must be a string or a real number"
  | .vlist _ => .error "TypeError: float() argument must be a string or a real number"

/-- Python `sum(l)` over a list of modelled values; raises on a non-numeric
element. -/
def pySum : List PyVal → Except String ℚ
  | [] => .ok 0
  | .vnum q :: rest => (pySum rest).map fun s => q + s
  | .vbool b :: rest => (pySum rest).map fun s => (if b then 1 else 0) + s
  | _ :: _ => .error "TypeError: unsupported operand type for +"

/-- Python `sum(x)/len(x)` for a truthy value expected to be a list; a truthy
non-list raises `TypeError` as `sum`/`len` would. -/
def pyMean : PyVal → Except String ℚ
  | .vlist l => (pySum l).map fun s => s / (l.length : ℚ)
  | _ => .error "TypeError: object is not iterable"

/-- Use of a dynamic value as a number in Python arithmetic (subtraction,
`abs`, `math.radians`): numbers pass, booleans coerce, everything else raises
`TypeError`. -/
def pyNum : PyVal → Except String ℚ
  | .vnum q => .ok q
  | .vbool b => .ok (if b then 1 else 0)
  | _ => .error "TypeError: unsupported operand type"

/-- Python `len()` over a dynamic value: strings and lists are sized;
numbers, booleans and `None` raise `TypeError`. -/
def pyLen : PyVal → Except String ℤ
  | .vstr s => .ok s.length
  | .vlist l => .ok l.length
  | _ => .error "TypeError: object has no len()"

/-- Truthiness of an optional dynamic value (an absent key is falsy). -/
def pvTruthy : Option PyVal → Bool
  | some v => v.truthy
  | none => false

end FinVault

namespace FinVault

/-! ## The `ipaddress` module: parsing, networks, membership, rendering -/

/-- An IP address value: the version tag and the numeric value. -/
inductive IPAddr where
  | v4 (val : ℕ)
  | v6 (val : ℕ)
  deriving Repr, DecidableEq

/-- Parse of one IPv4 dotted-quad octet: one to three decimal digits, no
leading zero, value at most 255. -/
def parseOctet (s : String) : Option ℕ :=
  let cs := s.toList
  if cs.isEmpty ∨ cs.length > 3 ∨ ¬cs.all Char.isDigit then none
  else if cs.length > 1 ∧ cs.head? = some '0' then none
  else match digitsVal cs with
    | some v => if v ≤ 255 then some v else none
    | none => none

/-- Parse of an IPv4 dotted-quad address per `ipaddress.IPv4Address`. -/
def parseIPv4 (s : String) : Option ℕ :=
  match strSplitOn s "." with
  | [a, b, c, d] =>
    match parseOctet a, parseOctet b, parseOctet c, parseOctet d with
    | some va, some vb, some vc, some vd =>
      some (((va * 256 + vb) * 256 + vc) * 256 + vd)
    | _, _, _, _ => none
  | _ => none

/-- Parse of one IPv6 hextet: one to four hexadecimal digits. -/
def parseHextet (s : String) : Option ℕ :=
  let cs := s.toList
  if cs.isEmpty ∨ cs.length > 4 then none
  else
    cs.foldl (fun acc c => match acc, hexVal c with
      | some a, some h => some (a * 16 + h)
      | _, _ => none) (some 0)

/-- Parse of a colon-separated run of IPv6 groups; when `allowV4Tail` is set
the final group may be an embedded dotted-quad (contributing two hextets). -/
def parseGroups (allowV4Tail : Bool) (s : String) : Option (List ℕ) :=
  if s = "" then some []
  else
    let parts := strSplitOn s ":"
    let rec go : List String → Option (List ℕ)
      | [] => some []
      | [last] =>
        if allowV4Tail ∧ strContains last "." then
          (parseIPv4 last).map fun v => [v / 65536, v % 65536]
        else (parseHextet last).map fun h => [h]
      | p :: rest =>
        match parseHextet p, go rest with
        | some h, some hs => some (h :: hs)
        | _, _ => none
    go parts

/-- Parse of an IPv6 address per `ipaddress.IPv6Address` (scoped addresses
with a zone id are out of the model). -/
def parseIPv6 (s : String) : Option ℕ :=
  if strContains s "%" then none
  else
    let packed := fun (gs : List ℕ) => gs.foldl (fun a g => a * 65536 + g) 0
    match strSplitOn s "::" with
    | [whole] =>
      match parseGroups true whole with
      | some gs => if gs.length = 8 then some (packed gs) else none
      | none => none
    | [l, r] =>
      match parseGroups false l, parseGroups true r with
      | some lg, some rg =>
        if lg.length + rg.length ≤ 7 then
          some (packed (lg ++ List.replicate (8 - lg.length - rg.length) 0 ++ rg))
        else none
      | _, _ => none
    | _ => none

/-- Model of `ipaddress.ip_address(s)`: IPv4 is attempted first, then IPv6. -/
def ipAddress (s : String) : Option IPAddr :=
  match parseIPv4 s with
  | some v => some (.v4 v)
  | none => (parseIPv6 s).map .v6

/-- Whether a 32-bit value is a contiguous-ones netmask; returns the prefix
length. -/
def netmaskLen (v : ℕ) : Option ℕ :=
  (List.range 33).find? fun p => v = (2 ^ 32 - 2 ^ (32 - p))

/-- Whether a 32-bit value is a contiguous-ones hostmask; returns the prefix
length. -/
def hostmaskLen (v : ℕ) : Option ℕ :=
  (List.range 33).find? fun p => v = 2 ^ (32 - p) - 1

/-- Parse of the mask half of an IPv4 network: a decimal prefix length, a
dotted netmask, or a dotted hostmask, per `IPv4Network._make_netmask`. -/
def parseV4Mask (s : String) : Option ℕ :=
  let cs := s.toList
  if ¬cs.isEmpty ∧ cs.all Char.isDigit then
    match digitsVal cs with
    | some n => if n ≤ 32 then some n else none
    | none => none
  else
    match parseIPv4 s with
    | some v =>
      match netmaskLen v with
      | some p => some p
      | none => hostmaskLen v
    | none => none

/-- Parse of the mask half of an IPv6 network: a decimal prefix length. -/
def parseV6Mask (s : String) : Option ℕ :=
  let cs := s.toList
  if ¬cs.isEmpty ∧ cs.all Char.isDigit then
    match digitsVal cs with
    | some n => if n ≤ 128 then some n else none
    | none => none
  else none

/-- A parsed IP network: version, base value with host bits cleared, and
prefix length. -/
structure IPNet where
  isV6 : Bool
  base : ℕ
  plen : ℕ
  deriving Repr, DecidableEq

/-- Clearing of the host bits of a value of the given width. -/
def maskBits (width plen v : ℕ) : ℕ :=
  v / 2 ^ (width - plen) * 2 ^ (width - plen)

/-- Model of `ipaddress.ip_network(s, strict=False)`: an address with an
optional `/mask` part; host bits are cleared.  Returns `none` where CPython
raises `ValueError`. -/
def ipNetwork (s : String) : Option IPNet :=
  match strSplitOn s "/" with
  | [addr] =>
    match ipAddress addr with
    | some (.v4 v) => some ⟨false, v, 32⟩
    | some (.v6 v) => some ⟨true, v, 128⟩
    | none => none
  | [addr, mask] =>
    match ipAddress addr with
    | some (.v4 v) =>
      (parseV4Mask mask).map fun p => ⟨false, maskBits 32 p v, p⟩
    | some (.v6 v) =>
      (parseV6Mask mask).map fun p => ⟨true, maskBits 128 p v, p⟩
    | none => none
  | _ => none

/-- Membership `ip_obj in net`: always false across versions, otherwise
equality under the network mask. -/
def ipInNet (a : IPAddr) (n : IPNet) : Bool :=
  match a with
  | .v4 v => ¬n.isV6 ∧ maskBits 32 n.plen v = n.base
  | .v6 v => n.isV6 ∧ maskBits 128 n.plen v = n.base

/-- Rendering of a 32-bit value as a dotted quad. -/
def renderV4 (v : ℕ) : String :=
  natStr (v / 16777216 % 256) ++ "." ++ natStr (v / 65536 % 256) ++ "." ++
    natStr (v / 256 % 256) ++ "." ++ natStr (v % 256)

/-- Lowercase hexadecimal rendering of a hextet, without leading zeros. -/
def hexStr (n : ℕ) : String :=
  String.mk ((Nat.toDigits 16 n).map fun c => c.toLower)

/-- The longest run of zero groups of length at least two (leftmost on ties),
as (start, length); `none` when no such run exists. -/
def bestZeroRun (gs : List ℕ) : Option (ℕ × ℕ) :=
  let runs := (List.range gs.length).filterMap fun i =>
    let len := ((gs.drop i).takeWhile (· = 0)).length
    if len ≥ 2 ∧ (i = 0 ∨ (gs.get? (i - 1)).getD 1 ≠ 0) then some (i, len) else none
  runs.foldl (fun best r => match best with
    | none => some r
    | some b => if r.2 > b.2 then some r else some b) none

/-- Compressed textual rendering of a 128-bit IPv6 value, per
`IPv6Address.__str__`. -/
def renderV6 (v : ℕ) : String :=
  let gs := (List.range 8).map fun i => v / 2 ^ (16 * (7 - i)) % 65536
  match bestZeroRun gs with
  | none => String.intercalate ":" (gs.map hexStr)
  | some (i, len) =>
    let pre := (gs.take i).map hexStr
    let post := (gs.drop (i + len)).map hexStr
    let pre := if pre.isEmpty then [""] else pre
    let post := if post.isEmpty then [""] else post
    String.intercalate ":" (pre ++ [""] ++ post)

end FinVault

namespace FinVault

/-! ## Signal shapes: device, geo, IP-geo dictionaries -/

/-- A screen value: either a `"WxH"` style string or a dict carrying numeric
width/height. -/
inductive ScreenVal where
  | s  (v : String)
  | wh (w h : ℚ)
  deriving Repr, DecidableEq

/-- Truthiness of an optional screen value. -/
def screenTruthy : Option ScreenVal → Bool
  | some (.s v) => v ≠ ""
  | some (.wh _ _) => true
  | none => false

/-- A device fingerprint dictionary; `extra` records whether the dict has
keys beyond the four the engine reads (they keep it truthy). -/
structure DeviceDict where
  browser : Option String := none
  os : Option String := none
  screen : Option ScreenVal := none
  timezone : Option String := none
  extra : Bool := false
  deriving Repr, DecidableEq

/-- Python emptiness of a device dict. -/
def DeviceDict.isEmpty (d : DeviceDict) : Bool :=
  d.browser = none ∧ d.os = none ∧ d.screen = none ∧ d.timezone = none ∧ !d.extra

/-- Truthiness of an optional rational (0 is falsy, as in Python). -/
def qTruthy : Option ℚ → Bool
  | some q => q ≠ 0
  | none => false

/-- A geolocation dictionary.  `latitude`/`longitude` stay dynamic (`PyVal`):
the source fetches them untyped and `math.radians` raises `TypeError` on a
non-numeric value.  A non-numeric `accuracy` behaves exactly like an absent
one (every read is guarded by `isinstance(..., (int, float))`), so `accuracy`
stays `Option ℚ` with `extra` covering ill-typed present keys. -/
structure GeoDict where
  latitude : Option PyVal := none
  longitude : Option PyVal := none
  accuracy : Option ℚ := none
  fallback : Option Bool := none
  extra : Bool := false

/-- Python emptiness of a geo dict. -/
def GeoDict.isEmpty (g : GeoDict) : Bool :=
  g.latitude.isNone && g.longitude.isNone && g.accuracy.isNone &&
    g.fallback.isNone && !g.extra

/-- Coarse IP-derived geolocation: city, region, country. -/
structure IpGeo where
  city : Option String := none
  region : Option String := none
  country : Option String := none
  deriving Repr, DecidableEq

/-! ## Device normalization helpers (`risk_engine.py` lines 193-299) -/

/-- Prefix match of the pattern `([A-Za-z]+)\s+(\d+)` as in
`_parse_browser`. -/
def matchNameNum (s : String) : Option (String × ℕ) :=
  let cs := s.toList
  let letters := cs.takeWhile Char.isAlpha
  let rest1 := cs.dropWhile Char.isAlpha
  let spaces := rest1.takeWhile Char.isWhitespace
  let rest2 := rest1.dropWhile Char.isWhitespace
  let digits := rest2.takeWhile Char.isDigit
  if letters.isEmpty ∨ spaces.isEmpty ∨ digits.isEmpty then none
  else some (String.mk letters, (digitsVal digits).getD 0)

/-- Embedding of `_ua_version`: the leading digits after the first needle
found in the UA string. -/
def uaVersion (ua : String) : List String → Option ℕ
  | [] => none
  | n :: rest =>
    if strContains ua n then
      let seg := String.intercalate n ((strSplitOn ua n).drop 1)
      let ds := seg.toList.takeWhile Char.isDigit
      if ds.isEmpty then none else some ((digitsVal ds).getD 0)
    else uaVersion ua rest

/-- Embedding of `_parse_browser`: browser brand and major version. -/
def parseBrowser (value : Option String) : Option String × Option ℕ :=
  match value with
  | none => (none, none)
  | some s =>
    if s = "" then (none, none)
    else
      let low := pyLower s
      match matchNameNum s with
      | some (brand, ver) => (some (pyLower brand), some ver)
      | none =>
        if strContains low "chrome" ∨ strContains low "crios" then
          (some "chrome", uaVersion low ["chrome/", "crios/"])
        else if strContains low "edg" then
          (some "edge", uaVersion low ["edg/"])
        else if strContains low "firefox" ∨ strContains low "fx" then
          (some "firefox", uaVersion low ["firefox/"])
        else if strContains low "safari" ∧ ¬strContains low "chrome" then
          (some "safari", uaVersion low ["version/"])
        else if strContains low "opr/" ∨ strContains low "opera" then
          (some "opera", uaVersion low ["opr/", "opera/"])
        else (none, none)

/-- Embedding of `_canonical_os`. -/
def canonicalOs (value : Option String) : Option String :=
  match value with
  | none => none
  | some v =>
    if v = "" then none
    else
      let s := pyLower v
      if strContains s "win" ∨ strContains s "windows" then some "windows"
      else if strContains s "mac" ∨ strContains s "darwin" ∨ strContains s "os x" ∨
          strContains s "macos" then some "macos"
      else if strContains s "android" then some "android"
      else if strContains s "ios" ∨ strContains s "iphone" ∨ strContains s "ipad" then
        some "ios"
      else if strContains s "linux" ∨ strContains s "ubuntu" ∨ strContains s "debian" ∨
          strContains s "arch" then some "linux"
      else some (pyStrip s)

/-- Prefix match of the pattern `\s*(\d+)\s*[xX]\s*(\d+)\s*` used for screen
strings. -/
def matchScreenStr (s : String) : Option (ℤ × ℤ) :=
  let cs := s.toList
  let cs := cs.dropWhile Char.isWhitespace
  let d1 := cs.takeWhile Char.isDigit
  let cs := cs.dropWhile Char.isDigit
  let cs := cs.dropWhile Char.isWhitespace
  match cs with
  | x :: cs =>
    if x = 'x' ∨ x = 'X' then
      let cs := cs.dropWhile Char.isWhitespace
      let d2 := cs.takeWhile Char.isDigit
      if d1.isEmpty ∨ d2.isEmpty then none
      else some (((digitsVal d1).getD 0 : ℕ), ((digitsVal d2).getD 0 : ℕ))
    else none
  | [] => none

/-- Embedding of `_parse_screen`: `(width, height)` from a string or a dict
with numeric width/height. -/
def parseScreen : Option ScreenVal → Option (ℤ × ℤ)
  | none => none
  | some (.s v) => matchScreenStr v
  | some (.wh w h) => some (pyTrunc w, pyTrunc h)

/-- Embedding of `_screen_within_tolerance`. -/
def screenWithinTolerance (a b : ℤ × ℤ) (tol : ℤ) : Bool :=
  (a.1 - b.1).natAbs ≤ tol.toNat ∧ (a.2 - b.2).natAbs ≤ tol.toNat

/-- Embedding of `_screen_class`. -/
def screenClass (p : ℤ × ℤ) : String :=
  let w := min p.1 p.2
  let h := max p.1 p.2
  if w ≤ 480 ∧ h ≤ 960 then "mobile-small"
  else if w ≤ 820 ∧ h ≤ 1366 then (if w < 600 then "mobile" else "tablet")
  else "desktop"

/-- Embedding of `canonicalize_device_fields`. -/
def canonicalize_device_fields (d : DeviceDict) : DeviceDict :=
  let (b, v) := parseBrowser d.browser
  let d := match b with
    | some bv =>
      { d with browser := some (match v with
        | some ver => pyCapitalize bv ++ " " ++ natStr ver
        | none => pyCapitalize bv) }
    | none => d
  let d := match canonicalOs d.os with
    | some o => if o ≠ "" then { d with os := some o } else d
    | none => d
  match parseScreen d.screen with
  | some (w, h) => { d with screen := some (.s (intStr w ++ "x" ++ intStr h)) }
  | none => d

end FinVault

namespace FinVault

/-! ## Baselines and behavioural penalty functions (`risk_engine.py`) -/

/-- Typing baselines as the engine reads them
(`profile['baselines']['typing']`). -/
structure TypingBaselines where
  wpm_mean : Option ℚ := none
  wpm_std : Option ℚ := none
  err_mean : Option ℚ := none
  err_std : Option ℚ := none
  timing_mean : Option ℚ := none
  timing_std : Option ℚ := none
  deriving Repr, DecidableEq

/-- Pointer baselines as the engine reads them
(`profile['baselines']['pointer']`). -/
structure PointerBaselines where
  path_len_mean : Option ℚ := none
  path_len_std : Option ℚ := none
  clicks_mean : Option ℚ := none
  clicks_std : Option ℚ := none
  deriving Repr, DecidableEq

/-- The nested `baselines` document. -/
structure Baselines where
  typing : Option TypingBaselines := none
  pointer : Option PointerBaselines := none
  deriving Repr, DecidableEq

/-- A stored raw typing pattern (`profile['typing_pattern']`). -/
structure TypingPattern where
  wpm : Option ℚ := none
  errorRate : Option ℚ := none
  keystrokeTimings : List ℚ := []
  deriving Repr, DecidableEq

/-- Stored raw mouse dynamics (`profile['mouse_dynamics']`). -/
structure MouseDynamics where
  path : List ℚ := []
  clicks : Option ℚ := none
  deriving Repr, DecidableEq

/-- The dict shape `typing_penalty` reads from its second argument. -/
structure TypingProf where
  baselines : Option Baselines := none
  typing_pattern : Option TypingPattern := none
  deriving Repr, DecidableEq

/-- The dict shape `mouse_penalty` reads from its second argument. -/
structure MouseProf where
  baselines : Option Baselines := none
  mouse_dynamics : Option MouseDynamics := none
  deriving Repr, DecidableEq

/-- A behavioural challenge's `data` dict.  All signal fields stay dynamic
(`PyVal`), mirroring that the source applies `float()`/`sum()`/`len()` and
bare arithmetic to them. -/
structure ChallengeData where
  wpm : Option PyVal := none
  errorRate : Option PyVal := none
  keystrokeTimings : Option PyVal := none
  path : Option PyVal := none
  clicks : Option PyVal := none

/-- The inner `zscore` helper shared by the penalty functions: `None` when a
baseline is absent or its deviation is at most `1e-6`. -/
def zscore (val : ℚ) (mean std : Option ℚ) : Option ℚ :=
  match mean, std with
  | some m, some s => if s ≤ 1/1000000 then none else some |(val - m) / s|
  | _, _ => none

/-- `zscore` over a dynamic value: an absent or degenerate baseline returns
`None` without touching the value; a valid baseline forces the subtraction
`val - mean`, which raises `TypeError` on a non-numeric value. -/
def zscoreVal (val : PyVal) (mean std : Option ℚ) : Except String (Option ℚ) :=
  match mean, std with
  | some m, some s =>
    if s ≤ 1/1000000 then .ok none
    else match pyNum val with
      | .error e => .error e
      | .ok q => .ok (some |(q - m) / s|)
  | _, _ => .ok none

/-- Shortest-style rendering of a Python float for f-string interpolation
(exact for the decimal values the telemetry carries). -/
def pyFloatRepr (q : ℚ) : String :=
  match (List.range 11).find? (fun p => (q * (10 : ℚ) ^ p).den = 1) with
  | some 0 => intStr q.num ++ ".0"
  | some p => formatFixed p q
  | none => formatFixed 17 q

/-- WPM section of `typing_penalty` (z-score ladder with fallback to the
absolute-difference ladder). -/
def typingWpmPart (tb : TypingBaselines) (pat : Option TypingPattern) (wpm : ℚ) :
    ℤ × List String :=
  match zscore wpm tb.wpm_mean tb.wpm_std with
  | some z =>
    if z > 3 then (25, ["Typing speed z=" ++ formatFixed 1 z])
    else if z > 2 then (15, ["Typing speed z=" ++ formatFixed 1 z])
    else if z > 3/2 then (8, ["Typing speed z=" ++ formatFixed 1 z])
    else (0, [])
  | none =>
    let wpmDiff := |wpm - ((pat.getD {}).wpm.getD 0)|
    let p : ℤ := if wpmDiff > 30 then 30 else if wpmDiff > 20 then 20
      else if wpmDiff > 10 then 10 else 0
    let r := if wpmDiff > 10 then
      ["Typing speed differs by " ++ formatFixed 1 wpmDiff ++ " WPM"] else []
    (p, r)

/-- Error-rate section of `typing_penalty`. -/
def typingErrPart (tb : TypingBaselines) (pat : Option TypingPattern) (err : ℚ) :
    ℤ × List String :=
  match zscore err tb.err_mean tb.err_std with
  | some z =>
    if z > 3 then (20, ["Error rate z=" ++ formatFixed 1 z])
    else if z > 2 then (12, ["Error rate z=" ++ formatFixed 1 z])
    else if z > 3/2 then (6, ["Error rate z=" ++ formatFixed 1 z])
    else (0, [])
  | none =>
    let errDiff := |err - ((pat.getD {}).errorRate.getD 0)|
    let p : ℤ := if errDiff > 1/5 then 20 else if errDiff > 1/10 then 10 else 0
    let r := if errDiff > 1/10 then
      ["Error rate differs by " ++ formatFixed 2 errDiff] else []
    (p, r)

/-- Keystroke-timings section of `typing_penalty`; `sum()` over a malformed
truthy value raises. -/
def typingTimingPart (tb : TypingBaselines) (pat : Option TypingPattern)
    (curTimings : PyVal) : Except String (ℤ × List String) :=
  let profTimings := (pat.getD {}).keystrokeTimings
  let fallbackTiming : Except String (ℤ × List String) :=
    if curTimings.truthy ∧ profTimings ≠ [] then
      match pyMean curTimings with
      | .error e => .error e
      | .ok curMean =>
        let profMean := profTimings.sum / (profTimings.length : ℚ)
        let timingDiff := |curMean - profMean|
        let p : ℤ := if timingDiff > 200 then 25 else if timingDiff > 100 then 15
          else if timingDiff > 50 then 5 else 0
        let r := if timingDiff > 50 then
          ["Keystroke timing mean differs by " ++ formatFixed 0 timingDiff ++ "ms"]
          else []
        .ok (p, r)
    else .ok (0, [])
  match tb.timing_mean, tb.timing_std with
  | some tm, some ts =>
    if curTimings.truthy ∧ ts > 1/1000000 then
      match pyMean curTimings with
      | .error e => .error e
      | .ok curMean =>
        let z := |(curMean - tm) / ts|
        if z > 3 then .ok (20, ["Timing mean z=" ++ formatFixed 1 z])
        else if z > 2 then .ok (12, ["Timing mean z=" ++ formatFixed 1 z])
        else if z > 3/2 then .ok (6, ["Timing mean z=" ++ formatFixed 1 z])
        else .ok (0, [])
    else fallbackTiming
  | _, _ => fallbackTiming

/-- Embedding of `typing_penalty`; `Except` captures the `ValueError` and
`TypeError` exceptions `float()` and `sum()` can raise. -/
def typing_penalty (cur : ChallengeData) (prof : TypingProf) :
    Except String (ℤ × List String) :=
  let tb := ((prof.baselines.getD {}).typing).getD {}
  match pyFloat (cur.wpm.getD (.vnum 0)) with
  | .error e => .error e
  | .ok wpm =>
    match pyFloat (cur.errorRate.getD (.vnum 0)) with
    | .error e => .error e
    | .ok err =>
      let curTimings := cur.keystrokeTimings.getD (.vlist [])
      let t1 := typingWpmPart tb prof.typing_pattern wpm
      let t2 := typingErrPart tb prof.typing_pattern err
      match typingTimingPart tb prof.typing_pattern curTimings with
      | .error e => .error e
      | .ok t3 => .ok (t1.1 + t2.1 + t3.1, t1.2 ++ t2.2 ++ t3.2)

/-- Path section of `mouse_penalty`: a truthy `path` value is measured with
`len()`, which raises on a truthy number or boolean. -/
def msPathPart (pb : PointerBaselines) (profPath : List ℚ) (curPath : PyVal) :
    Except String (ℤ × List String) :=
  if curPath.truthy then
    match pyLen curPath with
    | .error e => .error e
    | .ok curLen =>
      match zscore (curLen : ℚ) pb.path_len_mean pb.path_len_std with
      | some z =>
        .ok (if z > 3 then (12, ["Path len z=" ++ formatFixed 1 z])
          else if z > 2 then (7, ["Path len z=" ++ formatFixed 1 z])
          else (0, []))
      | none =>
        if profPath ≠ [] then
          let diff : ℤ := (curLen - (profPath.length : ℤ)).natAbs
          let p : ℤ := if diff > 50 then 15 else if diff > 10 then 5 else 0
          let r := if diff > 10 then
            ["Mouse/touch path length differs by " ++ intStr diff ++ " points"]
            else []
          .ok (p, r)
        else .ok (0, [])
  else .ok (0, [])

/-- Clicks section of `mouse_penalty`: the z-score and the fallback
difference both subtract from `clicks`, raising `TypeError` on a non-numeric
value. -/
def msClicksPart (pb : PointerBaselines) (profClicks : ℚ) (curClicks : PyVal) :
    Except String (ℤ × List String) :=
  match zscoreVal curClicks pb.clicks_mean pb.clicks_std with
  | .error e => .error e
  | .ok (some z) =>
    .ok (if z > 3 then (10, ["Clicks z=" ++ formatFixed 1 z])
      else if z > 2 then (6, ["Clicks z=" ++ formatFixed 1 z])
      else (0, []))
  | .ok none =>
    match pyNum curClicks with
    | .error e => .error e
    | .ok q =>
      let clickDiff := |q - profClicks|
      let p : ℤ := if clickDiff > 5 then 10 else if clickDiff > 2 then 5 else 0
      let r := if clickDiff > 2 then
        ["Click/tap count differs by " ++ pyFloatRepr clickDiff] else []
      .ok (p, r)

/-- Embedding of `mouse_penalty`; `Except` carries the `TypeError` exceptions
`len()` and the click arithmetic can raise. -/
def mouse_penalty (cur : ChallengeData) (prof : MouseProf) :
    Except String (ℤ × List String) :=
  let pb := ((prof.baselines.getD {}).pointer).getD {}
  let profPath := (prof.mouse_dynamics.getD {}).path
  match msPathPart pb profPath (cur.path.getD (.vlist [])) with
  | .error e => .error e
  | .ok m1 =>
    match msClicksPart pb ((prof.mouse_dynamics.getD {}).clicks.getD 0)
        (cur.clicks.getD (.vnum 0)) with
    | .error e => .error e
    | .ok m2 => .ok (m1.1 + m2.1, m1.2 ++ m2.2)

/-- Geo tolerance in meters: `clamp(accuracy, 100, 500)` when the accuracy is
numeric, else 100. -/
def geoTol (accuracy : Option ℚ) : ℚ :=
  match accuracy with
  | some a => max 100 (min 500 a)
  | none => 100

/-- The scaled over-tolerance penalty `int(10 + min(20, over / 100))`. -/
def geo_over_penalty (distM tolM : ℚ) : ℤ :=
  pyTrunc (10 + min 20 ((distM - tolM) / 100))

/-- The tolerance comparison of `geo_penalty` on a computed distance. -/
def geoComparePart (distKm tolM : ℚ) : ℤ × List String :=
  if distKm * 1000 > tolM then
    (geo_over_penalty (distKm * 1000) tolM,
      ["Geo differs by " ++ formatFixed 2 distKm ++ " km (> tol " ++
        intStr (pyTrunc tolM) ++ "m)"])
  else (0, [])

/-- Distance comparison half of `geo_penalty` (after the low-accuracy early
return): when all four coordinates are truthy, `_haversine` converts them
with `math.radians` in order, raising `TypeError` at the first non-numeric
one. -/
def geoDistancePart (hav : ℚ → ℚ → ℚ → ℚ → ℚ) (current profile : GeoDict)
    (accuracy : Option ℚ) : Except String (ℤ × List String) :=
  if pvTruthy current.latitude ∧ pvTruthy current.longitude ∧
      pvTruthy profile.latitude ∧ pvTruthy profile.longitude then
    match pyNum ((current.latitude).getD .vnone) with
    | .error e => .error e
    | .ok la1 =>
      match pyNum ((current.longitude).getD .vnone) with
      | .error e => .error e
      | .ok lo1 =>
        match pyNum ((profile.latitude).getD .vnone) with
        | .error e => .error e
        | .ok la2 =>
          match pyNum ((profile.longitude).getD .vnone) with
          | .error e => .error e
          | .ok lo2 =>
            .ok (geoComparePart (hav la1 lo1 la2 lo2) (geoTol accuracy))
  else .ok (0, [])

/-- Embedding of `geo_penalty`.  The haversine distance (transcendental) is
the explicit parameter `hav`, giving the great-circle distance in km;
`Except` carries the `TypeError` a non-numeric coordinate raises. -/
def geo_penalty (hav : ℚ → ℚ → ℚ → ℚ → ℚ) (current profile : GeoDict) :
    Except String (ℤ × List String) :=
  match current.accuracy with
  | some acc =>
    if acc > 500 then
      .ok (10, ["Geo accuracy too low (>500m); relying on IP/network"])
    else geoDistancePart hav current profile (some acc)
  | none => geoDistancePart hav current profile none

/-- Embedding of `_city_fallback_penalty`; `none` for the first argument is a
falsy dict. -/
def city_fallback_penalty (cur : Option IpGeo) (prof : IpGeo) : ℤ × List String :=
  match cur with
  | none => (15, ["No IP geo info for fallback"])
  | some c =>
    let cCity := pyLower (pyStrip (c.city.getD ""))
    let cRegion := pyLower (pyStrip (c.region.getD ""))
    let cCountry := pyLower (pyStrip (c.country.getD ""))
    let pCity := pyLower (pyStrip (prof.city.getD ""))
    let pRegion := pyLower (pyStrip (prof.region.getD ""))
    let pCountry := pyLower (pyStrip (prof.country.getD ""))
    if pCountry = "" then (15, ["No baseline IP geo; applying default fallback"])
    else if cCountry ≠ pCountry then (10, ["IP geo country differs"])
    else if cCity ≠ "" ∧ pCity ≠ "" ∧ cCity = pCity then
      (0, ["IP geo city matches baseline"])
    else if cRegion ≠ "" ∧ pRegion ≠ "" ∧ cRegion = pRegion then
      (3, ["IP geo region matches baseline"])
    else (7, ["IP geo region differs within country"])

end FinVault

namespace FinVault

/-- Browser section of `device_penalty`. -/
def devBrowserPart (curB profB : Option String) : ℤ × List String :=
  let cbv := parseBrowser curB
  let pbv := parseBrowser profB
  if strTruthy cbv.1 ∧ strTruthy pbv.1 then
    if cbv.1 ≠ pbv.1 then
      (20, ["Device browser brand mismatch: " ++ cbv.1.getD "" ++ " vs " ++ pbv.1.getD ""])
    else match cbv.2, pbv.2 with
      | some c, some p =>
        if ((c : ℤ) - (p : ℤ)).natAbs > 1 then
          (5, ["Device browser version differs: " ++ natStr c ++ " vs " ++ natStr p])
        else (0, [])
      | _, _ => (0, [])
  else if strTruthy curB ∧ strTruthy profB ∧ curB ≠ profB then
    (10, ["Device browser differs (unparsed)"])
  else (0, [])

/-- OS section of `device_penalty`. -/
def devOsPart (curOs profOs : Option String) : ℤ × List String :=
  let co := canonicalOs curOs
  let po := canonicalOs profOs
  if strTruthy co ∧ strTruthy po ∧ co ≠ po then
    (15, ["Device os family mismatch: " ++ co.getD "" ++ " vs " ++ po.getD ""])
  else (0, [])

/-- Screen section of `device_penalty`. -/
def devScreenPart (curS profS : Option ScreenVal) : ℤ × List String :=
  if screenTruthy curS ∧ screenTruthy profS then
    match parseScreen curS, parseScreen profS with
    | some cwh, some pwh =>
      if ¬screenWithinTolerance cwh pwh 100 then
        let ccls := screenClass cwh
        let pcls := screenClass pwh
        if ccls = pcls then
          (5, ["Screen size changed within same class (" ++ ccls ++ ")"])
        else (15, ["Screen class changed: " ++ ccls ++ " -> " ++ pcls])
      else (0, [])
    | _, _ =>
      if curS ≠ profS then (5, ["Screen differs"]) else (0, [])
  else (0, [])

/-- Timezone section of `device_penalty`. -/
def devTzPart (curT profT : Option String) : ℤ × List String :=
  if strTruthy curT ∧ strTruthy profT ∧ curT ≠ profT then
    (10, ["Device timezone mismatch: " ++ curT.getD "" ++ " vs " ++ profT.getD ""])
  else (0, [])

/-- Embedding of `device_penalty` (`risk_engine.py` lines 127-191). -/
def device_penalty (current profile : DeviceDict) : ℤ × List String :=
  let b := devBrowserPart current.browser profile.browser
  let o := devOsPart current.os profile.os
  let sc := devScreenPart current.screen profile.screen
  let t := devTzPart current.timezone profile.timezone
  (b.1 + o.1 + sc.1 + t.1, b.2 ++ o.2 ++ sc.2 ++ t.2)

/-! ## Login risk evaluation (`risk_engine.py` lines 75-668) -/

/-- The environment configuration the engine reads (`os.environ`), with the
source's defaults. -/
structure Env where
  mediumThreshold : ℤ := 40
  highThreshold : ℤ := 60
  carrierAsnList : String := "AS55836,AS45609,AS55410,AS55824"
  denylist : String := ""
  allowlist : String := ""
  deriving Repr, DecidableEq

/-- Embedding of `_ip_in_prefixes`. -/
def _ip_in_prefixes (ip : Option String) (prefixes : List String) : Bool :=
  match ip with
  | none => false
  | some s =>
    if s = "" then false
    else match ipAddress s with
      | none => false
      | some a => prefixes.any fun pref =>
          match ipNetwork (pyStrip pref) with
          | some net => ipInNet a net
          | none => false

/-- The `ip_asn` metric: the source distinguishes `int`, nonempty `str`, and
everything else. -/
inductive AsnField where
  | anone
  | aint (n : ℤ)
  | astr (s : String)
  | aother
  deriving Repr, DecidableEq

/-- The metrics dictionary consumed by `score_login`. -/
structure Metrics where
  device : DeviceDict := {}
  geo : GeoDict := {}
  ip : Option String := none
  ip_asn : AsnField := .anone
  ip_asn_org : Option String := none
  ip_city : Option String := none
  ip_region : Option String := none
  ip_country : Option String := none
  scroll_max_pct : Option ℚ := none
  dwell_ms : Option ℚ := none

/-- Embedding of `_normalize_metrics` (`metrics or {}`; `ip or None`). -/
def _normalize_metrics (metrics : Option Metrics) : Metrics :=
  let m := metrics.getD {}
  { m with ip := match m.ip with | some "" => none | x => x }

/-- The per-user behaviour profile document as the engine reads it. -/
structure Profile where
  device_fingerprint : Option DeviceDict := none
  geo : Option GeoDict := none
  ip_geo : Option IpGeo := none
  known_networks : Option (List String) := none
  typing_pattern : Option TypingPattern := none
  mouse_dynamics : Option MouseDynamics := none
  baselines : Option Baselines := none
  extra : Bool := false

/-- Python emptiness of a profile dict. -/
def Profile.isEmpty (p : Profile) : Bool :=
  p.device_fingerprint.isNone && p.geo.isNone && p.ip_geo.isNone &&
    p.known_networks.isNone && p.typing_pattern.isNone &&
    p.mouse_dynamics.isNone && p.baselines.isNone && !p.extra

/-- A behavioural challenge dict. -/
structure Challenge where
  type : Option String := none
  data : Option ChallengeData := none
  extra : Bool := false

/-- Truthiness of the optional challenge argument. -/
def challengeTruthy : Option Challenge → Bool
  | none => false
  | some c => c.type.isSome || c.data.isSome || c.extra

/-- The dict `score_login` passes as `typing_penalty`'s profile argument is
`profile.get('typing_pattern', {}) or {}` - the raw typing-pattern
sub-document, which carries none of the keys (`baselines`,
`typing_pattern`) that `typing_penalty` actually reads. -/
def typingProfOfPattern (_pat : Option TypingPattern) : TypingProf := {}

/-- Likewise `mouse_penalty` receives `profile.get('mouse_dynamics', {}) or
{}`, which carries neither `baselines` nor `mouse_dynamics`. -/
def mouseProfOfDynamics (_dyn : Option MouseDynamics) : MouseProf := {}

/-- The ASN-based IP weighting factor computed at the top of `score_login`
and `score_session`. -/
def ipWeightFactor (env : Env) (ip_asn : AsnField) : ℚ :=
  let asnStr : Option String := match ip_asn with
    | .aint n => some ("AS" ++ intStr n)
    | .astr s =>
      if pyStrip s ≠ "" then
        let u := pyUpper (pyStrip s)
        some (if strStartsWith u "AS" then u else "AS" ++ u)
      else none
    | _ => none
  let carriers :=
    (((strSplitOn env.carrierAsnList ",").map pyStrip).filter (· ≠ "")).map pyUpper
  match asnStr with
  | some a => if carriers.contains (pyUpper a) then 3/10 else 1
  | none => 1

/-- Result record of `score_login`. -/
structure ScoreResult where
  risk_score : ℤ
  level : String
  reasons : List String
  missing_signals : ℤ
  deriving Repr, DecidableEq

/-- Known-network adjustment of `score_login` (lines 612-620): a match
subtracts 7 (floored at 0), a miss adds the ASN-weighted nudge. -/
def known_network_step (ipWF : ℚ) (ip : Option String) (known : List String)
    (risk : ℤ) : ℤ × List String :=
  if ip ≠ none ∧ known ≠ [] then
    if _ip_in_prefixes ip known then
      (max 0 (risk - 7), ["IP matches user's known network"])
    else (risk + roundHalfEven (3 * ipWF), [])
  else (risk, [])

/-- Escalation floors of `score_login` (lines 639-642). -/
def escalation_floors (missing risk : ℤ) : ℤ :=
  let r1 := if missing ≥ 2 then max risk 45 else risk
  if missing ≥ 3 then max r1 65 else r1

/-- Threshold comparison shared by `score_login` and `score_session`. -/
def level_of (env : Env) (risk : ℤ) : String :=
  if risk > env.highThreshold then "high"
  else if risk > env.mediumThreshold then "medium" else "low"

/-- Embedding of `score_login`.  `hav` is the haversine distance model and
`env` the environment configuration; `Except` carries the exceptions the
dynamic typing can raise inside `typing_penalty`, `mouse_penalty` and
`geo_penalty`, in the source's evaluation order. -/
def score_login (env : Env) (hav : ℚ → ℚ → ℚ → ℚ → ℚ)
    (behavioral_challenge : Option Challenge) (metrics : Option Metrics)
    (profile : Option Profile) : Except String ScoreResult :=
  let p := profile.getD {}
  let m := _normalize_metrics metrics
  let geo := m.geo
  let device := m.device
  let ip := m.ip
  let ipWF := ipWeightFactor env m.ip_asn
  -- Baseline penalties for missing/weak signals (lines 536-552)
  let s1 : ℤ × List String :=
    if p.isEmpty then (20, ["No behavior profile on file"]) else (0, [])
  let s2 : ℤ × List String :=
    if ¬challengeTruthy behavioral_challenge then
      (15, ["No behavioral challenge provided"]) else (0, [])
  let geoMissing := geo.isEmpty ∨ geo.fallback.getD true
  let s3 : ℤ × List String :=
    if geoMissing then
      let cf := city_fallback_penalty (some ⟨m.ip_city, m.ip_region, m.ip_country⟩)
        (p.ip_geo.getD {})
      (cf.1, "No reliable geolocation (fallback or missing)" ::
        cf.2.map (fun r => "Geo fallback: " ++ r))
    else (0, [])
  let s4 : ℤ × List String :=
    if device.isEmpty then (20, ["No device fingerprint provided"]) else (0, [])
  -- Behavioral penalties (lines 554-562)
  let ch := behavioral_challenge.getD {}
  match (if challengeTruthy behavioral_challenge ∧ ch.type = some "typing" then
      typing_penalty (ch.data.getD {}) (typingProfOfPattern p.typing_pattern)
    else .ok (0, [])) with
  | .error e => .error e
  | .ok st =>
  match (if challengeTruthy behavioral_challenge ∧
      (ch.type = some "mouse" ∨ ch.type = some "touch") then
      mouse_penalty (ch.data.getD {}) (mouseProfOfDynamics p.mouse_dynamics)
    else .ok (0, [])) with
  | .error e => .error e
  | .ok sm =>
  -- Device checks (lines 564-575)
  let unknowns :=
    (if strTruthy device.browser then [] else ["browser"]) ++
    (if strTruthy device.os then [] else ["os"]) ++
    (if screenTruthy device.screen then [] else ["screen"]) ++
    (if strTruthy device.timezone then [] else ["timezone"])
  let s5 : ℤ × List String :=
    if unknowns ≠ [] then
      (10, ["Missing device fields: " ++ String.intercalate ", " unknowns])
    else (0, [])
  let fpTruthy := match p.device_fingerprint with
    | some f => !f.isEmpty
    | none => false
  let sd : ℤ × List String :=
    if fpTruthy && !device.isEmpty then
      device_penalty (canonicalize_device_fields device)
        (canonicalize_device_fields (p.device_fingerprint.getD {}))
    else (0, [])
  -- Geo checks (lines 577-595)
  let pGeoTruthy := match p.geo with
    | some g => !g.isEmpty
    | none => false
  match (if pGeoTruthy && !geo.isEmpty then
      geo_penalty hav geo (p.geo.getD {}) else .ok (0, [])) with
  | .error e => .error e
  | .ok sg =>
  let sga : ℤ × List String :=
    if pGeoTruthy && !geo.isEmpty then
      match geo.accuracy with
      | some acc =>
        if acc > 500 then
          let cf2 := city_fallback_penalty
            (some ⟨m.ip_city, m.ip_region, m.ip_country⟩) (p.ip_geo.getD {})
          let adj := max 0 (cf2.1 - 10)
          if adj ≠ 0 then (adj, cf2.2.map (fun r => "Geo fallback: " ++ r))
          else (0, [])
        else (0, [])
      | none => (0, [])
    else (0, [])
  -- IP presence and deny/allow lists (lines 596-610)
  let s6 : ℤ × List String :=
    if ip = none ∨ ip = some "unknown" then
      (5, ["IP missing or unknown"]) else (0, [])
  let denylist := ((strSplitOn env.denylist ",").map pyStrip).filter (· ≠ "")
  let allowlist := ((strSplitOn env.allowlist ",").map pyStrip).filter (· ≠ "")
  let s7 : ℤ × List String :=
    if denylist ≠ [] ∧ _ip_in_prefixes ip denylist then
      (25, ["IP is in denylist range"]) else (0, [])
  let s8 : ℤ := if allowlist ≠ [] ∧ ¬_ip_in_prefixes ip allowlist then
      roundHalfEven (5 * ipWF) else 0
  let riskA := s1.1 + s2.1 + s3.1 + s4.1 + st.1 + sm.1 + s5.1 + sd.1 + sg.1 +
    sga.1 + s6.1 + s7.1 + s8
  -- Known networks from the user profile (lines 612-620)
  let known := p.known_networks.getD []
  let kn := known_network_step ipWF ip known riskA
  let r10 := if ipWF < 1 then
      ["Carrier/mobile ASN detected; down-weighted IP-based checks"] else []
  -- Escalation by missing critical signals count (lines 629-642)
  let missing : ℤ :=
    (if p.isEmpty then 1 else 0) +
    (if ¬challengeTruthy behavioral_challenge then 1 else 0) +
    (if device.isEmpty then 1 else 0) +
    (if geoMissing then 1 else 0)
  let riskE := min (escalation_floors missing kn.1) 100
  -- Passive telemetry (lines 645-655), applied after the clamp
  let s11 : ℤ × List String := match m.scroll_max_pct with
    | some sc => if sc < 10 then (2, ["Low scroll depth"]) else (0, [])
    | none => (0, [])
  let s12 : ℤ × List String := match m.dwell_ms with
    | some d => if d < 2000 then (2, ["Very short dwell time"]) else (0, [])
    | none => (0, [])
  let riskF := riskE + s11.1 + s12.1
  .ok ⟨riskF, level_of env riskF,
    s1.2 ++ s2.2 ++ s3.2 ++ s4.2 ++ st.2 ++ sm.2 ++ s5.2 ++ sd.2 ++ sg.2 ++
      sga.2 ++ s6.2 ++ s7.2 ++ kn.2 ++ r10 ++ s11.2 ++ s12.2,
    missing⟩

end FinVault

namespace FinVault

/-! ## In-session scoring (`score_session`, `risk_engine.py` lines 671-780) -/

/-- The telemetry dictionary consumed by `score_session`. -/
structure Telemetry where
  device : DeviceDict := {}
  geo : GeoDict := {}
  ip : Option String := none
  ip_asn : AsnField := .anone
  ip_asn_org : Option String := none
  ip_city : Option String := none
  ip_region : Option String := none
  ip_country : Option String := none
  idle_jitter_ms : Option ℚ := none
  pointer_speed_std : Option ℚ := none
  nav_bf_usage : Option ℚ := none

/-- Result record of `score_session`. -/
structure SessionResult where
  risk_score : ℤ
  level : String
  reasons : List String
  deriving Repr, DecidableEq

/-- Final clamp `min(100, max(0, risk))` and threshold comparison of
`score_session`. -/
def session_finalize (env : Env) (total : ℤ) (reasons : List String) : SessionResult :=
  ⟨min 100 (max 0 total),
    if min 100 (max 0 total) > env.highThreshold then "high"
    else if min 100 (max 0 total) > env.mediumThreshold then "medium" else "low",
    reasons⟩

/-- Embedding of `score_session`; `Except` carries the `TypeError` a
non-numeric geo coordinate raises inside `geo_penalty` (the call has no
surrounding try/except). -/
def score_session (env : Env) (hav : ℚ → ℚ → ℚ → ℚ → ℚ) (telemetry : Telemetry)
    (profile : Option Profile) : Except String SessionResult :=
  let p := profile.getD {}
  let device := telemetry.device
  let geo := telemetry.geo
  let ip := match telemetry.ip with | some "" => none | x => x
  -- Device/Geo consistency (halved weights)
  let fpTruthy := match p.device_fingerprint with
    | some f => !f.isEmpty
    | none => false
  let sd : ℤ × List String := if fpTruthy && !device.isEmpty then
      device_penalty (canonicalize_device_fields device)
        (canonicalize_device_fields (p.device_fingerprint.getD {}))
    else (0, [])
  let pGeoTruthy := match p.geo with
    | some g => !g.isEmpty
    | none => false
  match (if pGeoTruthy && !geo.isEmpty then
      geo_penalty hav geo (p.geo.getD {}) else .ok (0, [])) with
  | .error e => .error e
  | .ok sg =>
  let sga : ℤ × List String := if pGeoTruthy && !geo.isEmpty then
      match geo.accuracy with
      | some acc =>
        if acc > 500 then
          let cf := city_fallback_penalty
            (some ⟨telemetry.ip_city, telemetry.ip_region, telemetry.ip_country⟩)
            (p.ip_geo.getD {})
          let adj := max 0 (cf.1 - 10)
          if adj ≠ 0 then (Int.fdiv adj 2, cf.2.map (fun r => "Geo fallback: " ++ r))
          else (0, [])
        else (0, [])
      | none => (0, [])
    else (0, [])
  -- IP / networks
  let ipWF := ipWeightFactor env telemetry.ip_asn
  let sip : ℤ × List String :=
    if ip = none ∨ ip = some "unknown" then
      ((3 : ℤ), ["IP missing or unknown (session)"])
    else
      let known := p.known_networks.getD []
      let k : ℤ := if known ≠ [] ∧ ¬_ip_in_prefixes ip known then
          roundHalfEven (3 * ipWF) else 0
      let denylist := ((strSplitOn env.denylist ",").map pyStrip).filter (· ≠ "")
      let allowlist := ((strSplitOn env.allowlist ",").map pyStrip).filter (· ≠ "")
      let dl : ℤ × List String := if denylist ≠ [] ∧ _ip_in_prefixes ip denylist then
          ((20 : ℤ), ["IP in denylist range (session)"]) else (0, [])
      let al : ℤ := if allowlist ≠ [] ∧ ¬_ip_in_prefixes ip allowlist then
          roundHalfEven (3 * ipWF) else 0
      (k + dl.1 + al, dl.2)
  let asnr := if ipWF < 1 then
      ["Carrier/mobile ASN detected; down-weighted IP checks (session)"] else []
  -- Idle / pointer / navigation anomalies
  let sj : ℤ × List String := match telemetry.idle_jitter_ms with
    | some j => if j > 3000 then ((5 : ℤ), ["High idle jitter"]) else (0, [])
    | none => (0, [])
  let sp : ℤ × List String := match telemetry.pointer_speed_std with
    | some s => if s > 3/2 then ((5 : ℤ), ["Unstable pointer speed"]) else (0, [])
    | none => (0, [])
  let sn : ℤ × List String := match telemetry.nav_bf_usage with
    | some n => if n > 5 then ((3 : ℤ), ["High back/forward usage"]) else (0, [])
    | none => (0, [])
  let total := Int.fdiv sd.1 2 + Int.fdiv sg.1 2 + sga.1 + sip.1 + sj.1 + sp.1 + sn.1
  .ok (session_finalize env total
    (sd.2 ++ sg.2 ++ sga.2 ++ sip.2 ++ asnr ++ sj.2 ++ sp.2 ++ sn.2))

/-! ## Prefix derivation and the session guardian
(`telemetry_service.py`, `drift_monitor.py`, `session_guardian.py`) -/

/-- Embedding of `telemetry_service.ip_prefix` (also re-derived inline in
`drift_monitor.py` and `auth.py`): the containing /24 (IPv4) or /64 (IPv6)
network string. -/
def ipPrefixOf (ip : String) : Option String :=
  match ipAddress ip with
  | some (.v4 v) => some (renderV4 (maskBits 32 24 v) ++ "/24")
  | some (.v6 v) => some (renderV6 (maskBits 128 64 v) ++ "/64")
  | none => none

/-- Setting of one field of a Redis hash (the hash is a finite map; the
representation keeps one entry per key). -/
def setField (st : List (String × String)) (k v : String) : List (String × String) :=
  (k, v) :: st.filter (fun kv => kv.1 ≠ k)

/-- Redis `hset(key, mapping=...)`: the given fields are written, all other
fields of the hash are kept. -/
def hset (st : List (String × String)) (mapping : List (String × String)) :
    List (String × String) :=
  mapping.foldl (fun s kv => setField s kv.1 kv.2) st

/-- JSON rendering of a string value (the modelled values carry no escapes). -/
def jsonStr (s : String) : String := "\"" ++ s ++ "\""

/-- JSON rendering of a screen value. -/
def jsonOfScreen : ScreenVal → String
  | .s v => jsonStr v
  | .wh w h => "\x7b\"width\": " ++ pyFloatRepr w ++ ", \"height\": " ++ pyFloatRepr h ++ "\x7d"

/-- Embedding of `compute_behavior_signature`: SHA-256 (the explicit
`sha256hex` parameter) of the canonical sorted-key JSON of the truthy core
device fields plus the IP prefix. -/
def compute_behavior_signature (sha256hex : String → String) (device : DeviceDict)
    (ipPref : Option String) : Option String :=
  let entries : List (String × String) :=
    (match device.browser with
      | some b => if b ≠ "" then [("browser", jsonStr b)] else []
      | none => []) ++
    (match ipPref with
      | some pref => if pref ≠ "" then [("ip_prefix", jsonStr pref)] else []
      | none => []) ++
    (match device.os with
      | some o => if o ≠ "" then [("os", jsonStr o)] else []
      | none => []) ++
    (match device.screen with
      | some sc => if screenTruthy (some sc) then [("screen", jsonOfScreen sc)] else []
      | none => []) ++
    (match device.timezone with
      | some t => if t ≠ "" then [("timezone", jsonStr t)] else []
      | none => [])
  let json := "\x7b" ++
    String.intercalate ", " (entries.map fun kv => jsonStr kv.1 ++ ": " ++ kv.2) ++ "\x7d"
  some (sha256hex json)

/-- The prefix derivation inside `validate_behavior_signature`
(`drift_monitor.py` lines 25-35): the /24 or /64 network of a truthy IP. -/
def sessionIpPref (currentIp : Option String) : Option String :=
  match currentIp with
  | some ip => if ip ≠ "" then ipPrefixOf ip else none
  | none => none

/-- Embedding of `validate_behavior_signature`: on mismatch the session hash
is forced to medium/50 with the mismatch reason; returns the updated hash and
the validation verdict. -/
def validate_behavior_signature (sha256hex : String → String) (now : String)
    (tokenSig : Option String) (currentDevice : DeviceDict)
    (currentIp : Option String) (st : List (String × String)) :
    List (String × String) × Bool :=
  if ¬strTruthy tokenSig then (st, true)
  else
    match compute_behavior_signature sha256hex currentDevice (sessionIpPref currentIp) with
    | some curSig =>
      if curSig ≠ "" ∧ tokenSig ≠ some curSig then
        (hset st [("risk_level", "medium"), ("risk_score", "50"),
          ("updated_at", now), ("reason", "behavior_signature_mismatch")], false)
      else (st, true)
    | none => (st, true)

/-- The dynamically typed object the guardian passes to `score_session` as
`profile`: a loaded document, or the coroutine object produced when the Motor
`find_one` call is not awaited. -/
inductive ProfileObj where
  | dict (p : Option Profile)
  | coroutine

/-- `score_session` applied to a dynamically typed `profile` object.
`profile or \x7b\x7d` keeps any truthy object, so a coroutine passes through
and the first attribute access `profile.get('device_fingerprint')` raises
`AttributeError`. -/
def score_session_obj (env : Env) (hav : ℚ → ℚ → ℚ → ℚ → ℚ)
    (telemetry : Telemetry) : ProfileObj → Except String SessionResult
  | .dict p => score_session env hav telemetry p
  | .coroutine => .error "AttributeError: coroutine object has no attribute get"

/-- Result of one telemetry ingest: the session hash after the handler ends,
and the response payload - or the exception that ended the handler. -/
structure IngestResult where
  state : List (String × String)
  outcome : Except String (String × ℤ)

/-- Embedding of `ingest_telemetry` for one session: the optional token's
decoded `behavior_signature` claim (outer `none` = no token supplied), then
the signature validation (which forces the medium/50 state on mismatch), then
the scoring step and the state write.  The profile load at
`session_guardian.py` line 34 is not awaited, so the scoring step receives
the coroutine object and raises; the state write of the `.ok` branch is dead
code in the source.  `now` and `now2` stand for the two `datetime.now`
timestamps. -/
def ingest_telemetry (env : Env) (hav : ℚ → ℚ → ℚ → ℚ → ℚ)
    (sha256hex : String → String) (now now2 : String) (userId : ℤ)
    (telemetry : Telemetry) (tokenSig : Option (Option String))
    (st : List (String × String)) : IngestResult :=
  let st1 := match tokenSig with
    | some claimsSig =>
      (validate_behavior_signature sha256hex now claimsSig telemetry.device
        telemetry.ip st).1
    | none => st
  match score_session_obj env hav telemetry .coroutine with
  | .error e => ⟨st1, .error e⟩
  | .ok result =>
    let st2 := hset st1 [("user_id", intStr userId), ("risk_level", result.level),
      ("risk_score", intStr result.risk_score), ("updated_at", now2)]
    ⟨st2, .ok (result.level, result.risk_score)⟩

end FinVault

namespace FinVault

/-! ## Known-network lifecycle (`telemetry_service.py` lines 216-298,
`auth.py` lines 784-795 and 831-924) -/

/-- A `known_network_counters` document (`pfx` embeds the `prefix` field). -/
structure CounterRow where
  user_id : ℤ
  pfx : String
  day : String
  first_seen : String
  last_seen : String
  deriving Repr, DecidableEq

/-- Embedding of `update_known_network_counter`: upsert of the
`(user_id, prefix, day)` counter row. -/
def update_known_network_counter (userId : ℤ) (ip : Option String) (day now : String)
    (counters : List CounterRow) : List CounterRow :=
  if userId = 0 ∨ ¬strTruthy ip then counters
  else match ipPrefixOf (ip.getD "") with
    | none => counters
    | some pref =>
      if counters.any (fun r => r.user_id = userId ∧ r.pfx = pref ∧ r.day = day) then
        counters.map (fun r =>
          if r.user_id = userId ∧ r.pfx = pref ∧ r.day = day then
            { r with last_seen := now } else r)
      else counters ++ [⟨userId, pref, day, now, now⟩]

/-- Count of distinct days recorded for `(user_id, prefix)` with
`day ≥ cutoff` (the `$gte` window query plus set comprehension). -/
def distinct_days_count (userId : ℤ) (pref cutoff : String)
    (counters : List CounterRow) : ℕ :=
  (((counters.filter fun r =>
    r.user_id = userId ∧ r.pfx = pref ∧ strLe cutoff r.day).map (·.day)).dedup).length

/-- Embedding of `promote_known_network_if_ready`: `$addToSet` of the prefix
when the distinct-day count over the trailing window reaches the
threshold. -/
def promote_known_network_if_ready (threshold : ℤ) (userId : ℤ) (ip : Option String)
    (cutoff : String) (counters : List CounterRow) (known : List String) :
    List String :=
  if userId = 0 ∨ ¬strTruthy ip then known
  else match ipPrefixOf (ip.getD "") with
    | none => known
    | some pref =>
      if (distinct_days_count userId pref cutoff counters : ℤ) ≥ threshold then
        if pref ∈ known then known else known ++ [pref]
      else known

/-- The most recent counter row for `(user_id, prefix)` (the descending
`last_seen` sort). -/
def latestRowFor (userId : ℤ) (pref : String) (counters : List CounterRow) :
    Option CounterRow :=
  (counters.filter fun r => r.user_id = userId ∧ r.pfx = pref).foldl
    (fun best r => match best with
      | none => some r
      | some b => if strLt b.last_seen r.last_seen then some r else some b) none

/-- Embedding of `demote_stale_known_networks`: `$pull` of every known prefix
whose most recent counter is missing, empty, or older than the decay
cutoff. -/
def demote_stale_known_networks (userId : ℤ) (cutoff : String)
    (counters : List CounterRow) (known : List String) : List String :=
  known.filter fun pref =>
    match latestRowFor userId pref counters with
    | some r => r.last_seen ≠ "" ∧ ¬strLt r.last_seen cutoff
    | none => false

/-- The persistent network state a login touches: the counter collection and
the profile's `known_networks` array. -/
structure NetState where
  counters : List CounterRow
  known_networks : List String
  deriving Repr, DecidableEq

/-- Embedding of the network-related persistence of a low-risk `login`
(`auth.py`): the counter upsert, the gated promotion, the stale demotion
(lines 842-845), and then the unconditional `$addToSet` of the freshly
derived `ip_prefix` into `known_networks` (lines 786-795 and 921-922). -/
def login_low_risk_network_ops (threshold : ℤ) (day now promoCutoff decayCutoff : String)
    (userId : ℤ) (ip : Option String) (st : NetState) : NetState :=
  let st1 := if strTruthy ip then
      let cs := update_known_network_counter userId ip day now st.counters
      let kn := promote_known_network_if_ready threshold userId ip promoCutoff cs
        st.known_networks
      let kn := demote_stale_known_networks userId decayCutoff cs kn
      NetState.mk cs kn
    else st
  let ipPref := match ip with
    | some s => if s ≠ "" then ipPrefixOf s else none
    | none => none
  match ipPref with
  | some pref =>
    { st1 with known_networks :=
        if pref ∈ st1.known_networks then st1.known_networks
        else st1.known_networks ++ [pref] }
  | none => st1

/-- Predicate written from the spec's words for C5: an address in the
RFC1918, link-local, or loopback ranges (IPv4 and IPv6). -/
def isRfc1918LinkLocalLoopback (ip : String) : Bool :=
  _ip_in_prefixes (some ip)
    ["10.0.0.0/8", "172.16.0.0/12", "192.168.0.0/16", "169.254.0.0/16",
      "127.0.0.0/8", "fe80::/10", "::1/128"]

/-! ## Baseline learner (`auth.py` lines 851-904) -/

/-- Embedding of the inner `ewma_update` helper. -/
def ewma_update (mean var : Option ℚ) (x : ℚ) (alpha : ℚ := 3/10) : ℚ × ℚ :=
  match mean, var with
  | some m, some v =>
    let newMean := alpha * x + (1 - alpha) * m
    (newMean, alpha * (x - newMean) ^ 2 + (1 - alpha) * v)
  | _, _ => (x, 1)

/-- The stored typing-baselines document the learner writes. -/
structure TypingBaselinesDoc where
  wpm_mean : Option ℚ := none
  wpm_var : Option ℚ := none
  wpm_std : Option ℚ := none
  err_mean : Option ℚ := none
  err_var : Option ℚ := none
  err_std : Option ℚ := none
  timing_mean : Option ℚ := none
  timing_var : Option ℚ := none
  timing_std : Option ℚ := none
  deriving Repr, DecidableEq

/-- Embedding of the typing-baselines update block (`auth.py` lines 866-887).
`sqrtQ` models the float square root `** 0.5`. -/
def update_typing_baselines (sqrtQ : ℚ → ℚ) (tBase : TypingBaselinesDoc)
    (wpm err : ℚ) (timings : List ℚ) : TypingBaselinesDoc :=
  let wm := ewma_update tBase.wpm_mean tBase.wpm_var wpm
  let em := ewma_update tBase.err_mean tBase.err_var err
  let tm : Option (ℚ × ℚ) :=
    if timings ≠ [] then
      some (ewma_update tBase.timing_mean tBase.timing_var
        (timings.sum / (timings.length : ℚ)))
    else none
  { wpm_mean := some wm.1, wpm_var := some wm.2, wpm_std := some (sqrtQ (orZero wm.2)),
    err_mean := some em.1, err_var := some em.2, err_std := some (sqrtQ (orZero em.2)),
    timing_mean := tm.map Prod.fst, timing_var := tm.map Prod.snd,
    timing_std := (tm.map Prod.snd).map (fun v => sqrtQ (orZero v)) }

/-- The stored pointer-baselines document the learner writes. -/
structure PointerBaselinesDoc where
  path_len_mean : Option ℚ := none
  path_len_var : Option ℚ := none
  path_len_std : Option ℚ := none
  clicks_mean : Option ℚ := none
  clicks_var : Option ℚ := none
  clicks_std : Option ℚ := none
  deriving Repr, DecidableEq

/-- Embedding of the pointer-baselines update block (`auth.py` lines
889-904). -/
def update_pointer_baselines (sqrtQ : ℚ → ℚ) (pBase : PointerBaselinesDoc)
    (pathLen clicks : ℚ) : PointerBaselinesDoc :=
  let pl := ewma_update pBase.path_len_mean pBase.path_len_var pathLen
  let ck := ewma_update pBase.clicks_mean pBase.clicks_var clicks
  { path_len_mean := some pl.1, path_len_var := some pl.2,
    path_len_std := some (sqrtQ (orZero pl.2)),
    clicks_mean := some ck.1, clicks_var := some ck.2,
    clicks_std := some (sqrtQ (orZero ck.2)) }

end FinVault

namespace FinVault

/-- Read of one field of a session hash. -/
def getField (st : List (String × String)) (k : String) : Option String :=
  match st with
  | [] => none
  | kv :: rest => if kv.1 = k then some kv.2 else getField rest k

/-- The error payload of a scoring result, when one was raised. -/
def exceptErr (e : Except String ScoreResult) : Option String :=
  match e with
  | .error s => some s
  | .ok _ => none

/-! ## Concrete inputs used by witnesses and counterexamples -/

/-- A degenerate haversine model (the geo comparison path is not exercised by
the concrete inputs below). -/
def havZero : ℚ → ℚ → ℚ → ℚ → ℚ := fun _ _ _ _ => 0

/-- A degenerate SHA-256 model for concrete signature comparisons. -/
def shaConst : String → String := fun _ => "SIGX"

/-- A degenerate float-square-root model. -/
def sqrtZero : ℚ → ℚ := fun _ => 0

/-- A fully populated device fingerprint. -/
def devChrome : DeviceDict :=
  { browser := some "Chrome 119", os := some "windows",
    screen := some (.s "1920x1080"), timezone := some "Asia/Kolkata" }

/-- C1 counterexample challenge: a typing sample far from the stored zeroes. -/
def chC1 : Option Challenge :=
  some { type := some "typing",
          data := some { wpm := some (.vnum 100), errorRate := some (.vnum (1/2)) } }

/-- C1 counterexample metrics: empty signals plus passive scroll/dwell tells. -/
def mC1 : Option Metrics := some { scroll_max_pct := some 5, dwell_ms := some 100 }

/-- C1 counterexample profile: nonempty, with only a raw typing pattern. -/
def pC1 : Option Profile :=
  some { typing_pattern :=
          some { wpm := some 0, errorRate := some 0, keystrokeTimings := [0, 0] } }

/-- The result `score_login` returns on the C1 counterexample input. -/
def resC1 : ScoreResult :=
  ⟨104, "high",
    ["No reliable geolocation (fallback or missing)",
     "Geo fallback: No baseline IP geo; applying default fallback",
     "No device fingerprint provided",
     "Typing speed differs by 100.0 WPM",
     "Error rate differs by 0.50",
     "Missing device fields: browser, os, screen, timezone",
     "IP missing or unknown", "Low scroll depth", "Very short dwell time"],
    2⟩

/-- C4 challenge: a mouse challenge with empty data (no behavioural penalty). -/
def chC4 : Option Challenge := some { type := some "mouse", data := some {} }

/-- C4 metrics: full device, no geo, matching coarse IP geo. -/
def mC4 : Option Metrics :=
  some { device := devChrome, ip := some "203.0.113.10",
          ip_city := some "Pune", ip_region := some "MH", ip_country := some "IN" }

/-- C4 profile: only a coarse IP-geo baseline matching the metrics. -/
def pC4 : Option Profile :=
  some { ip_geo :=
          some { city := some "Pune", region := some "MH", country := some "IN" } }

/-- The result `score_login` returns on the C4 input. -/
def resC4 : ScoreResult :=
  ⟨0, "low",
    ["No reliable geolocation (fallback or missing)",
     "Geo fallback: IP geo city matches baseline"],
    1⟩

/-- C7 metrics: full device, precise non-fallback geo, an IP - so that only
the profile and challenge signals are missing. -/
def mC7 : Option Metrics :=
  some { device := devChrome,
          geo := { latitude := some (.vnum 10), longitude := some (.vnum 20),
                    accuracy := some 30, fallback := some false },
          ip := some "203.0.113.10" }

/-- The result `score_login` returns on the C7 input. -/
def resC7 : ScoreResult :=
  ⟨45, "medium",
    ["No behavior profile on file", "No behavioral challenge provided"], 2⟩

/-- C6 counterexample challenge: a typing sample whose `wpm` is the
non-numeric string `"abc"`. -/
def chC6 : Option Challenge :=
  some { type := some "typing", data := some { wpm := some (.vstr "abc") } }

/-- C6 witness challenge: a typing sample with numeric fields. -/
def chC6ok : Option Challenge :=
  some { type := some "typing",
          data := some { wpm := some (.vnum 62), errorRate := some (.vnum (3/100)),
                          keystrokeTimings := some (.vlist [.vnum 100, .vnum 110]) } }

/-- C6 mouse counterexample challenge: `clicks` is the non-numeric string
`"abc"`. -/
def chC6m : Option Challenge :=
  some { type := some "mouse", data := some { clicks := some (.vstr "abc") } }

/-- C6: a typing sample whose `keystrokeTimings` is a truthy non-list (no
raise: the stored timings list this call path compares against is always
empty, so `sum()` is unreachable). -/
def chC6list : Option Challenge :=
  some { type := some "typing",
          data := some { wpm := some (.vnum 62), errorRate := some (.vnum (3/100)),
                          keystrokeTimings := some (.vstr "xyz") } }

/-- C6 geo counterexample metrics: a truthy string latitude in precise
(non-fallback) geo. -/
def mC6g : Option Metrics :=
  some { geo := { latitude := some (.vstr "12.9"), longitude := some (.vnum 77),
                   fallback := some false } }

/-- C6 geo counterexample profile: a stored numeric geo baseline. -/
def pC6g : Option Profile :=
  some { geo := some { latitude := some (.vnum 12), longitude := some (.vnum 77) } }

/-- The result `score_session` returns on empty telemetry and no profile. -/
def sesC1 : SessionResult := ⟨3, "low", ["IP missing or unknown (session)"]⟩

/-- C3/C5 fresh network state. -/
def netStEmpty : NetState := ⟨[], []⟩

/-- The network state after one low-risk login from `198.51.100.5` on a fresh
profile. -/
def netStC3 : NetState :=
  login_low_risk_network_ops 3 "2026-10-12" "2026-10-12T10:00:00" "2026-09-12"
    "2026-07-14" 1 (some "198.51.100.5") netStEmpty

/-- The network state after one low-risk login from the private address
`192.168.1.5` on a fresh profile. -/
def netStC5 : NetState :=
  login_low_risk_network_ops 3 "2026-10-12" "2026-10-12T10:00:00" "2026-09-12"
    "2026-07-14" 1 (some "192.168.1.5") netStEmpty

end FinVault

namespace FinVault

/-! ## Bound lemmas for the penalty components and the scoring pipeline -/

theorem ite_int_nonneg {c : Prop} [Decidable c] {a b : ℤ} (ha : 0 ≤ a) (hb : 0 ≤ b) :
    0 ≤ ite c a b := by split <;> assumption

theorem fst_ite_nonneg {c : Prop} [Decidable c] {x y : ℤ × List String}
    (hx : 0 ≤ x.1) (hy : 0 ≤ y.1) : 0 ≤ (ite c x y).1 := by split <;> assumption

theorem pyTrunc_nonneg {q : ℚ} (h : 0 ≤ q) : 0 ≤ pyTrunc q := by
  unfold pyTrunc; split_ifs with h1
  · linarith
  · exact Int.floor_nonneg.mpr h

theorem roundHalfEven_nonneg {q : ℚ} (h : 0 ≤ q) : 0 ≤ roundHalfEven q := by
  have hf : 0 ≤ ⌊q⌋ := Int.floor_nonneg.mpr h
  simp only [roundHalfEven]
  split_ifs <;> omega

theorem city_fallback_penalty_bounds (c : Option IpGeo) (p : IpGeo) :
    0 ≤ (city_fallback_penalty c p).1 ∧ (city_fallback_penalty c p).1 ≤ 15 := by
  unfold city_fallback_penalty
  rcases c with _ | c
  · exact ⟨by norm_num, by norm_num⟩
  · dsimp only
    split_ifs <;> exact ⟨by norm_num, by norm_num⟩

theorem geo_over_penalty_nonneg {distM tolM : ℚ} (h : tolM < distM) :
    0 ≤ geo_over_penalty distM tolM := by
  unfold geo_over_penalty
  apply pyTrunc_nonneg
  have h1 : (0 : ℚ) ≤ (distM - tolM) / 100 := by
    apply div_nonneg
    · linarith
    · norm_num
  have h2 : (0 : ℚ) ≤ min 20 ((distM - tolM) / 100) := le_min (by norm_num) h1
  linarith

theorem geoComparePart_nonneg (distKm tolM : ℚ) : 0 ≤ (geoComparePart distKm tolM).1 := by
  unfold geoComparePart
  split_ifs with h
  · exact geo_over_penalty_nonneg h
  · norm_num

theorem geoDistancePart_ok_nonneg (hav : ℚ → ℚ → ℚ → ℚ → ℚ) (c p : GeoDict)
    (a : Option ℚ) (pr : ℤ × List String)
    (h : geoDistancePart hav c p a = .ok pr) : 0 ≤ pr.1 := by
  simp only [geoDistancePart] at h
  split_ifs at h
  · split at h
    · cases h
    · split at h
      · cases h
      · split at h
        · cases h
        · split at h
          · cases h
          · cases h
            exact geoComparePart_nonneg _ _
  · cases h
    norm_num

theorem geo_penalty_ok_nonneg (hav : ℚ → ℚ → ℚ → ℚ → ℚ) (c p : GeoDict)
    (pr : ℤ × List String) (h : geo_penalty hav c p = .ok pr) : 0 ≤ pr.1 := by
  simp only [geo_penalty] at h
  split at h
  · split_ifs at h
    · cases h
      norm_num
    · exact geoDistancePart_ok_nonneg _ _ _ _ _ h
  · exact geoDistancePart_ok_nonneg _ _ _ _ _ h

theorem typingWpmPart_nonneg (tb : TypingBaselines) (pat : Option TypingPattern)
    (wpm : ℚ) : 0 ≤ (typingWpmPart tb pat wpm).1 := by
  simp only [typingWpmPart]
  split
  · split_ifs <;> norm_num
  · split_ifs <;> norm_num

theorem typingErrPart_nonneg (tb : TypingBaselines) (pat : Option TypingPattern)
    (err : ℚ) : 0 ≤ (typingErrPart tb pat err).1 := by
  simp only [typingErrPart]
  split
  · split_ifs <;> norm_num
  · split_ifs <;> norm_num

theorem devBrowserPart_nonneg (a b : Option String) : 0 ≤ (devBrowserPart a b).1 := by
  simp only [devBrowserPart]
  split_ifs with h1 h2 h3
  · norm_num
  · split
    · split_ifs <;> norm_num
    · norm_num
  · norm_num
  · norm_num

theorem devOsPart_nonneg (a b : Option String) : 0 ≤ (devOsPart a b).1 := by
  simp only [devOsPart]; split_ifs <;> norm_num

theorem devScreenPart_nonneg (a b : Option ScreenVal) : 0 ≤ (devScreenPart a b).1 := by
  simp only [devScreenPart]
  split_ifs with h1 <;> try norm_num
  all_goals (split <;> (try split_ifs) <;> norm_num)

theorem devTzPart_nonneg (a b : Option String) : 0 ≤ (devTzPart a b).1 := by
  simp only [devTzPart]; split_ifs <;> norm_num

theorem device_penalty_nonneg (a b : DeviceDict) : 0 ≤ (device_penalty a b).1 := by
  unfold device_penalty
  dsimp only
  have h1 := devBrowserPart_nonneg a.browser b.browser
  have h2 := devOsPart_nonneg a.os b.os
  have h3 := devScreenPart_nonneg a.screen b.screen
  have h4 := devTzPart_nonneg a.timezone b.timezone
  omega

theorem msPathPart_ok_nonneg (pb : PointerBaselines) (pp : List ℚ) (cp : PyVal)
    (pr : ℤ × List String) (h : msPathPart pb pp cp = .ok pr) : 0 ≤ pr.1 := by
  simp only [msPathPart] at h
  split_ifs at h
  · split at h
    · cases h
    · split at h
      · split_ifs at h <;> (cases h; norm_num)
      · split_ifs at h <;> (cases h; norm_num)
  · split at h
    · cases h
    · split at h
      · split_ifs at h <;> (cases h; norm_num)
      · cases h
        norm_num
  · cases h
    norm_num

theorem msClicksPart_ok_nonneg (pb : PointerBaselines) (pc : ℚ) (cc : PyVal)
    (pr : ℤ × List String) (h : msClicksPart pb pc cc = .ok pr) : 0 ≤ pr.1 := by
  simp only [msClicksPart] at h
  split at h
  · cases h
  · split_ifs at h <;> (cases h; norm_num)
  · split at h
    · cases h
    · split_ifs at h <;> (cases h; norm_num)

theorem mouse_penalty_ok_nonneg (cur : ChallengeData) (prof : MouseProf)
    (pr : ℤ × List String) (h : mouse_penalty cur prof = .ok pr) : 0 ≤ pr.1 := by
  simp only [mouse_penalty] at h
  split at h
  · cases h
  · next m1 h1 =>
    split at h
    · cases h
    · next m2 h2 =>
      cases h
      have hm1 := msPathPart_ok_nonneg _ _ _ _ h1
      have hm2 := msClicksPart_ok_nonneg _ _ _ _ h2
      dsimp only
      omega

end FinVault
namespace FinVault

theorem typingTimingPart_ok_nonneg (tb : TypingBaselines) (pat : Option TypingPattern)
    (ct : PyVal) (pr : ℤ × List String) (h : typingTimingPart tb pat ct = .ok pr) :
    0 ≤ pr.1 := by
  simp only [typingTimingPart] at h
  split at h
  · split_ifs at h
    · split at h
      · cases h
      · split_ifs at h <;> (cases h; norm_num)
    all_goals
      (first
        | (cases h; norm_num)
        | (split at h
           · cases h
           · split_ifs at h <;> (cases h; norm_num)))
  · split_ifs at h
    all_goals
      (first
        | (cases h; norm_num)
        | (split at h
           · cases h
           · split_ifs at h <;> (cases h; norm_num)))

theorem typing_penalty_ok_nonneg (cur : ChallengeData) (prof : TypingProf)
    (pr : ℤ × List String) (h : typing_penalty cur prof = .ok pr) : 0 ≤ pr.1 := by
  simp only [typing_penalty] at h
  split at h
  · cases h
  · next wpm hw =>
    split at h
    · cases h
    · next err he =>
      split at h
      · cases h
      · next t3 ht3 =>
        cases h
        have h1 := typingWpmPart_nonneg (((prof.baselines.getD {}).typing).getD {})
          prof.typing_pattern wpm
        have h2 := typingErrPart_nonneg (((prof.baselines.getD {}).typing).getD {})
          prof.typing_pattern err
        have h3 := typingTimingPart_ok_nonneg _ _ _ _ ht3
        dsimp only
        omega

end FinVault
namespace FinVault

theorem ipWeightFactor_cases (env : Env) (a : AsnField) :
    ipWeightFactor env a = 3/10 ∨ ipWeightFactor env a = 1 := by
  rcases a with _ | n | s | _ <;> unfold ipWeightFactor <;> dsimp only
  · exact Or.inr rfl
  · split_ifs <;> first | exact Or.inl rfl | exact Or.inr rfl
  · split_ifs <;> dsimp only <;>
      first
        | exact Or.inl rfl
        | exact Or.inr rfl
        | (split_ifs <;> first | exact Or.inl rfl | exact Or.inr rfl)
  · exact Or.inr rfl

theorem ipWeightFactor_nonneg (env : Env) (a : AsnField) : 0 ≤ ipWeightFactor env a := by
  rcases ipWeightFactor_cases env a with h | h <;> rw [h] <;> norm_num

theorem known_network_step_nonneg (ipWF : ℚ) (ip : Option String) (known : List String)
    (risk : ℤ) (hr : 0 ≤ risk) (hw : 0 ≤ ipWF) :
    0 ≤ (known_network_step ipWF ip known risk).1 := by
  simp only [known_network_step]
  split_ifs
  · exact le_max_left 0 _
  · exact add_nonneg hr (roundHalfEven_nonneg (by positivity))
  · exact hr

theorem escalation_floors_nonneg (missing risk : ℤ) (h : 0 ≤ risk) :
    0 ≤ escalation_floors missing risk := by
  simp only [escalation_floors]; split_ifs <;> omega

theorem escalation_floors_floor2 (missing risk : ℤ) (h : 2 ≤ missing) :
    45 ≤ escalation_floors missing risk := by
  simp only [escalation_floors]; split_ifs <;> omega

theorem escalation_floors_floor3 (missing risk : ℤ) (h : 3 ≤ missing) :
    65 ≤ escalation_floors missing risk := by
  simp only [escalation_floors]; split_ifs <;> omega

theorem level_of_mem (env : Env) (risk : ℤ) :
    level_of env risk = "low" ∨ level_of env risk = "medium" ∨ level_of env risk = "high" := by
  simp only [level_of]; split_ifs <;> simp

theorem clamp_passive_bounds (x a b : ℤ) (hx : 0 ≤ x) (ha : 0 ≤ a) (ha2 : a ≤ 2)
    (hb : 0 ≤ b) (hb2 : b ≤ 2) :
    0 ≤ min x 100 + a + b ∧ min x 100 + a + b ≤ 104 := by omega

theorem floor_passive (x a b f : ℤ) (hx : f ≤ x) (hf : f ≤ 100) (ha : 0 ≤ a) (hb : 0 ≤ b) :
    f ≤ min x 100 + a + b := by omega

end FinVault
namespace FinVault

theorem login_tail_all (env : Env) (ipWF : ℚ) (ip : Option String) (known : List String)
    (riskA missing a b : ℤ) (hA : 0 ≤ riskA) (hWF : 0 ≤ ipWF)
    (ha : 0 ≤ a) (ha2 : a ≤ 2) (hb : 0 ≤ b) (hb2 : b ≤ 2) :
    (0 ≤ min (escalation_floors missing (known_network_step ipWF ip known riskA).1) 100 + a + b ∧
      min (escalation_floors missing (known_network_step ipWF ip known riskA).1) 100 + a + b ≤ 104) ∧
    (level_of env (min (escalation_floors missing (known_network_step ipWF ip known riskA).1) 100 + a + b) = "low" ∨
      level_of env (min (escalation_floors missing (known_network_step ipWF ip known riskA).1) 100 + a + b) = "medium" ∨
      level_of env (min (escalation_floors missing (known_network_step ipWF ip known riskA).1) 100 + a + b) = "high") ∧
    (2 ≤ missing → 45 ≤ min (escalation_floors missing (known_network_step ipWF ip known riskA).1) 100 + a + b) ∧
    (3 ≤ missing → 65 ≤ min (escalation_floors missing (known_network_step ipWF ip known riskA).1) 100 + a + b) := by
  have hk := known_network_step_nonneg ipWF ip known riskA hA hWF
  have he := escalation_floors_nonneg missing _ hk
  refine ⟨clamp_passive_bounds _ _ _ he ha ha2 hb hb2, level_of_mem _ _, ?_, ?_⟩
  · intro hm
    exact floor_passive _ _ _ _ (escalation_floors_floor2 _ _ hm) (by norm_num) ha hb
  · intro hm
    exact floor_passive _ _ _ _ (escalation_floors_floor3 _ _ hm) (by norm_num) ha hb

theorem score_login_ok_bounds (env : Env) (hav : ℚ → ℚ → ℚ → ℚ → ℚ)
    (c : Option Challenge) (m : Option Metrics) (p : Option Profile) (r : ScoreResult)
    (h : score_login env hav c m p = .ok r) :
    (0 ≤ r.risk_score ∧ r.risk_score ≤ 104) ∧
    (r.level = "low" ∨ r.level = "medium" ∨ r.level = "high") ∧
    (2 ≤ r.missing_signals → 45 ≤ r.risk_score) ∧
    (3 ≤ r.missing_signals → 65 ≤ r.risk_score) := by
  simp only [score_login] at h
  split at h
  · cases h
  · next st hst =>
    split at h
    · cases h
    · next sm hsm =>
      split at h
      · cases h
      · next sg hsg =>
        cases h
        have hst0 : 0 ≤ st.1 := by
          split at hst
          · exact typing_penalty_ok_nonneg _ _ _ hst
          · cases hst; norm_num
        have hsm0 : 0 ≤ sm.1 := by
          split at hsm
          · exact mouse_penalty_ok_nonneg _ _ _ hsm
          · cases hsm; norm_num
        have hsg0 : 0 ≤ sg.1 := by
          split at hsg
          · exact geo_penalty_ok_nonneg _ _ _ _ hsg
          · cases hsg; norm_num
        dsimp only
        refine login_tail_all env _ _ _ _ _ _ _ ?_ (ipWeightFactor_nonneg _ _) ?_ ?_ ?_ ?_
        · -- the additive penalty accumulation is nonnegative
          refine add_nonneg (add_nonneg (add_nonneg (add_nonneg (add_nonneg (add_nonneg
            (add_nonneg (add_nonneg (add_nonneg (add_nonneg (add_nonneg (add_nonneg
            ?_ ?_) ?_) ?_) ?_) ?_) ?_) ?_) ?_) ?_) ?_) ?_) ?_
          · exact fst_ite_nonneg (by norm_num) (by norm_num)
          · exact fst_ite_nonneg (by norm_num) (by norm_num)
          · exact fst_ite_nonneg (city_fallback_penalty_bounds _ _).1 (by norm_num)
          · exact fst_ite_nonneg (by norm_num) (by norm_num)
          · exact hst0
          · exact hsm0
          · exact fst_ite_nonneg (by norm_num) (by norm_num)
          · exact fst_ite_nonneg (device_penalty_nonneg _ _) (by norm_num)
          · exact hsg0
          · refine fst_ite_nonneg ?_ (by norm_num)
            split <;> (try split_ifs) <;> first | exact le_max_left 0 _ | norm_num
          · exact fst_ite_nonneg (by norm_num) (by norm_num)
          · exact fst_ite_nonneg (by norm_num) (by norm_num)
          · exact ite_int_nonneg
              (roundHalfEven_nonneg (mul_nonneg (by norm_num) (ipWeightFactor_nonneg _ _)))
              (by norm_num)
        · split <;> (try split_ifs) <;> norm_num
        · split <;> (try split_ifs) <;> norm_num
        · split <;> (try split_ifs) <;> norm_num
        · split <;> (try split_ifs) <;> norm_num

end FinVault
namespace FinVault

theorem session_finalize_bounds (env : Env) (total : ℤ) (reasons : List String) :
    (0 ≤ (session_finalize env total reasons).risk_score ∧
      (session_finalize env total reasons).risk_score ≤ 100) ∧
    ((session_finalize env total reasons).level = "low" ∨
      (session_finalize env total reasons).level = "medium" ∨
      (session_finalize env total reasons).level = "high") := by
  simp only [session_finalize]
  refine ⟨⟨le_min (by norm_num) (le_max_left 0 _), min_le_left _ _⟩, ?_⟩
  split_ifs <;> simp

theorem score_session_ok_bounds (env : Env) (hav : ℚ → ℚ → ℚ → ℚ → ℚ)
    (t : Telemetry) (p : Option Profile) (r : SessionResult)
    (h : score_session env hav t p = .ok r) :
    (0 ≤ r.risk_score ∧ r.risk_score ≤ 100) ∧
    (r.level = "low" ∨ r.level = "medium" ∨ r.level = "high") := by
  simp only [score_session] at h
  split at h
  · cases h
  · cases h
    exact session_finalize_bounds _ _ _

end FinVault

namespace FinVault

/-! ## Session-hash lemmas -/

theorem getField_filter_ne (st : List (String × String)) (k k' : String) (h : k' ≠ k) :
    getField (st.filter fun kv => kv.1 ≠ k) k' = getField st k' := by
  induction st with
  | nil => rfl
  | cons a t ih =>
    by_cases hak : a.1 = k
    · rw [List.filter_cons_of_neg (by simp [hak])]
      have hne : ¬a.1 = k' := by rw [hak]; exact fun e => h e.symm
      rw [getField, if_neg hne, ih]
    · rw [List.filter_cons_of_pos (by simp [hak])]
      by_cases hk' : a.1 = k'
      · rw [getField, if_pos hk', getField, if_pos hk']
      · rw [getField, if_neg hk', getField, if_neg hk', ih]

theorem getField_setField_self (st : List (String × String)) (k v : String) :
    getField (setField st k v) k = some v := by
  simp [setField, getField]

theorem getField_setField_ne (st : List (String × String)) (k k' v : String)
    (h : k' ≠ k) : getField (setField st k v) k' = getField st k' := by
  rw [setField, getField, if_neg (fun e => h e.symm), getField_filter_ne _ _ _ h]

theorem compute_behavior_signature_isSome (sha : String → String) (d : DeviceDict)
    (ipPref : Option String) :
    ∃ cs, compute_behavior_signature sha d ipPref = some cs := ⟨_, rfl⟩

/-- On a nonempty token signature that differs from the derived signature,
`validate_behavior_signature` writes the forced medium/50 state. -/
theorem validate_mismatch (sha : String → String) (now : String) (sig : String)
    (d : DeviceDict) (ip : Option String) (st : List (String × String))
    (hsig : sig ≠ "")
    (hmism : ∀ cs, compute_behavior_signature sha d (sessionIpPref ip) = some cs →
      cs ≠ "" ∧ sig ≠ cs) :
    validate_behavior_signature sha now (some sig) d ip st =
      (hset st [("risk_level", "medium"), ("risk_score", "50"), ("updated_at", now),
        ("reason", "behavior_signature_mismatch")], false) := by
  rw [validate_behavior_signature, if_neg (by simp [strTruthy, hsig])]
  obtain ⟨cs, hc⟩ := compute_behavior_signature_isSome sha d (sessionIpPref ip)
  rw [hc]
  obtain ⟨h1, h2⟩ := hmism cs hc
  dsimp only
  rw [if_pos ⟨h1, by simpa using h2⟩]

end FinVault

namespace FinVault

/-- On a signature mismatch, the forced medium/50 write survives the whole
ingest: the scoring step raises `AttributeError` on the un-awaited profile
coroutine before the final state write, so nothing overwrites the forced
fields. -/
theorem ingest_mismatch_state (env : Env) (hav : ℚ → ℚ → ℚ → ℚ → ℚ)
    (sha : String → String) (now now2 : String) (uid : ℤ) (tel : Telemetry)
    (sig : String) (st : List (String × String))
    (hsig : sig ≠ "")
    (hmism : ∀ cs,
      compute_behavior_signature sha tel.device (sessionIpPref tel.ip) = some cs →
      cs ≠ "" ∧ sig ≠ cs) :
    getField (ingest_telemetry env hav sha now now2 uid tel (some (some sig)) st).state
        "risk_level" = some "medium" ∧
    getField (ingest_telemetry env hav sha now now2 uid tel (some (some sig)) st).state
        "risk_score" = some "50" ∧
    getField (ingest_telemetry env hav sha now now2 uid tel (some (some sig)) st).state
        "reason" = some "behavior_signature_mismatch" ∧
    (ingest_telemetry env hav sha now now2 uid tel (some (some sig)) st).outcome =
      .error "AttributeError: coroutine object has no attribute get" := by
  unfold ingest_telemetry
  dsimp only [score_session_obj]
  rw [validate_mismatch sha now sig tel.device tel.ip st hsig hmism]
  dsimp only
  simp only [hset, List.foldl]
  refine ⟨?_, ?_, ?_, trivial⟩
  · rw [getField_setField_ne _ _ _ _ (by decide), getField_setField_ne _ _ _ _ (by decide),
      getField_setField_ne _ _ _ _ (by decide), getField_setField_self]
  · rw [getField_setField_ne _ _ _ _ (by decide), getField_setField_ne _ _ _ _ (by decide),
      getField_setField_self]
  · rw [getField_setField_self]

/-! ## Known-network lemmas -/

/-- `promote_known_network_if_ready` adds a prefix only once the distinct-day
gate is met, and the added prefix is the one derived from the IP. -/
theorem promote_gate (t uid : ℤ) (ip : Option String) (cutoff : String)
    (counters : List CounterRow) (known : List String) (pref : String)
    (hnot : pref ∉ known)
    (hmem : pref ∈ promote_known_network_if_ready t uid ip cutoff counters known) :
    ipPrefixOf (ip.getD "") = some pref ∧
      t ≤ (distinct_days_count uid pref cutoff counters : ℤ) := by
  unfold promote_known_network_if_ready at hmem
  split_ifs at hmem with hg
  · exact absurd hmem hnot
  · split at hmem
    · exact absurd hmem hnot
    · next pref' hp =>
      split_ifs at hmem with hcount hcont
      · exact absurd hmem hnot
      · rcases List.mem_append.mp hmem with h | h
        · exact absurd h hnot
        · have he : pref = pref' := by simpa using h
          subst he
          exact ⟨hp, hcount⟩
      · exact absurd hmem hnot

/-- The low-risk login flow always inserts the derived prefix into
`known_networks`, with no distinct-day condition. -/
theorem login_ops_adds (t : ℤ) (day now pc dc : String) (uid : ℤ)
    (ip : Option String) (st : NetState) (pref : String)
    (hip : strTruthy ip = true) (hpref : ipPrefixOf (ip.getD "") = some pref) :
    pref ∈ (login_low_risk_network_ops t day now pc dc uid ip st).known_networks := by
  rcases ip with _ | s
  · simp [strTruthy] at hip
  · have hs : s ≠ "" := by simpa [strTruthy] using hip
    rw [show (some s).getD "" = s from rfl] at hpref
    unfold login_low_risk_network_ops
    dsimp only
    rw [if_pos hs, hpref]
    dsimp only
    split_ifs with hc
    · exact hc
    · exact List.mem_append.mpr (Or.inr (by simp))

/-- `update_known_network_counter` records a `(user_id, prefix, day)` row for
any valid IP, private or not. -/
theorem counter_records (uid : ℤ) (ip : Option String) (day now : String)
    (counters : List CounterRow) (pref : String) (h0 : ¬uid = 0)
    (hip : strTruthy ip = true) (hpref : ipPrefixOf (ip.getD "") = some pref) :
    (update_known_network_counter uid ip day now counters).any
      (fun r => r.user_id = uid ∧ r.pfx = pref ∧ r.day = day) = true := by
  unfold update_known_network_counter
  rw [if_neg (by simp [h0, hip]), hpref]
  dsimp only
  split_ifs with hex
  · obtain ⟨r, hr, hpr⟩ := List.any_eq_true.mp hex
    rw [decide_eq_true_eq] at hpr
    rw [List.any_eq_true]
    refine ⟨{ r with last_seen := now }, ?_, ?_⟩
    · exact List.mem_map.mpr ⟨r, hr, by rw [if_pos hpr]⟩
    · rw [decide_eq_true_eq]
      exact ⟨hpr.1, hpr.2.1, hpr.2.2⟩
  · simp [List.any_append]

end FinVault

namespace FinVault

/-! ## Exception-freedom lemmas for the typing path -/

theorem orZero_eq (q : ℚ) : orZero q = q := by
  unfold orZero
  split_ifs with h
  · rw [h]
  · rfl

theorem eq_ok_of_toOption {α : Type} {e : Except String α} {a : α}
    (h : e.toOption = some a) : e = .ok a := by
  cases e with
  | error err => simp [Except.toOption] at h
  | ok b => simp [Except.toOption] at h; rw [h]

theorem exists_ok_of_isOk {α : Type} {e : Except String α} (h : e.isOk = true) :
    ∃ a, e = .ok a := by
  cases e with
  | error err => simp [Except.isOk, Except.toBool] at h
  | ok a => exact ⟨a, rfl⟩

theorem typingTimingPart_isOk (tb : TypingBaselines) (pat : Option TypingPattern)
    (ct : PyVal) (h : ct.truthy = true → (pyMean ct).isOk = true) :
    (typingTimingPart tb pat ct).isOk = true := by
  simp only [typingTimingPart]
  split <;> split_ifs with h1 h2 <;>
    first
      | rfl
      | (obtain ⟨pm, hpm⟩ := exists_ok_of_isOk (h (by first | exact h1.1 | exact h2.1))
         rw [hpm]
         dsimp only
         first | rfl | (split_ifs <;> rfl))

theorem typing_penalty_isOk (cur : ChallengeData) (prof : TypingProf)
    (h1 : (pyFloat (cur.wpm.getD (.vnum 0))).isOk = true)
    (h2 : (pyFloat (cur.errorRate.getD (.vnum 0))).isOk = true)
    (h3 : (cur.keystrokeTimings.getD (.vlist [])).truthy = true →
      (pyMean (cur.keystrokeTimings.getD (.vlist []))).isOk = true) :
    (typing_penalty cur prof).isOk = true := by
  simp only [typing_penalty]
  obtain ⟨w, hw⟩ := exists_ok_of_isOk h1
  obtain ⟨er, he⟩ := exists_ok_of_isOk h2
  rw [hw]
  dsimp only
  rw [he]
  dsimp only
  obtain ⟨t3, ht3⟩ := exists_ok_of_isOk
    (typingTimingPart_isOk (((prof.baselines.getD {}).typing).getD {})
      prof.typing_pattern (cur.keystrokeTimings.getD (.vlist [])) h3)
  rw [ht3]
  rfl

/-- With no stored baselines and no stored pattern - the shape `score_login`
always passes - the timing section cannot reach `pyMean`: the stored timings
list is empty, so `sum()` is unreachable whatever the current value. -/
theorem typingTimingPart_empty_isOk (ct : PyVal) :
    (typingTimingPart ({} : TypingBaselines) none ct).isOk = true := by
  simp only [typingTimingPart, Option.getD]
  rw [if_neg (by simp)]
  rfl

/-- `typing_penalty` as `score_login` calls it (with the raw typing-pattern
sub-document as the profile) returns a result whenever `wpm` and `errorRate`
convert under `float()`; `keystrokeTimings` needs no condition. -/
theorem typing_penalty_pattern_isOk (cur : ChallengeData) (pat : Option TypingPattern)
    (h1 : (pyFloat (cur.wpm.getD (.vnum 0))).isOk = true)
    (h2 : (pyFloat (cur.errorRate.getD (.vnum 0))).isOk = true) :
    (typing_penalty cur (typingProfOfPattern pat)).isOk = true := by
  simp only [typing_penalty]
  obtain ⟨w, hw⟩ := exists_ok_of_isOk h1
  obtain ⟨er, he⟩ := exists_ok_of_isOk h2
  rw [hw]
  dsimp only
  rw [he]
  dsimp only
  obtain ⟨t3, ht3⟩ := exists_ok_of_isOk
    (show (typingTimingPart
        ((((typingProfOfPattern pat).baselines.getD {}).typing).getD {})
        (typingProfOfPattern pat).typing_pattern
        (cur.keystrokeTimings.getD (.vlist []))).isOk = true
      from typingTimingPart_empty_isOk _)
  rw [ht3]
  rfl

theorem msPathPart_isOk (pb : PointerBaselines) (pp : List ℚ) (cp : PyVal)
    (h : cp.truthy = true → (pyLen cp).isOk = true) :
    (msPathPart pb pp cp).isOk = true := by
  simp only [msPathPart]
  split_ifs with ht ht2
  · obtain ⟨n, hn⟩ := exists_ok_of_isOk (h ht)
    rw [hn]
    dsimp only
    split <;> rfl
  · obtain ⟨n, hn⟩ := exists_ok_of_isOk (h ht)
    rw [hn]
    dsimp only
    split <;> rfl
  · rfl

theorem zscoreVal_isOk (cc : PyVal) (mean std : Option ℚ)
    (h : (pyNum cc).isOk = true) : (zscoreVal cc mean std).isOk = true := by
  simp only [zscoreVal]
  split
  · split_ifs
    · rfl
    · obtain ⟨q, hq⟩ := exists_ok_of_isOk h
      rw [hq]
      rfl
  · rfl

theorem msClicksPart_isOk (pb : PointerBaselines) (pc : ℚ) (cc : PyVal)
    (h : (pyNum cc).isOk = true) : (msClicksPart pb pc cc).isOk = true := by
  simp only [msClicksPart]
  obtain ⟨o, ho⟩ := exists_ok_of_isOk (zscoreVal_isOk cc pb.clicks_mean pb.clicks_std h)
  rw [ho]
  rcases o with _ | z
  · dsimp only
    obtain ⟨q, hq⟩ := exists_ok_of_isOk h
    rw [hq]
    rfl
  · rfl

theorem mouse_penalty_isOk (cur : ChallengeData) (prof : MouseProf)
    (hp : (cur.path.getD (.vlist [])).truthy = true →
      (pyLen (cur.path.getD (.vlist []))).isOk = true)
    (hc : (pyNum (cur.clicks.getD (.vnum 0))).isOk = true) :
    (mouse_penalty cur prof).isOk = true := by
  simp only [mouse_penalty]
  obtain ⟨m1, h1⟩ := exists_ok_of_isOk
    (msPathPart_isOk (((prof.baselines.getD {}).pointer).getD {})
      ((prof.mouse_dynamics.getD {}).path) (cur.path.getD (.vlist [])) hp)
  rw [h1]
  dsimp only
  obtain ⟨m2, h2⟩ := exists_ok_of_isOk
    (msClicksPart_isOk (((prof.baselines.getD {}).pointer).getD {})
      ((prof.mouse_dynamics.getD {}).clicks.getD 0) (cur.clicks.getD (.vnum 0)) hc)
  rw [h2]
  rfl

theorem geoDistancePart_isOk (hav : ℚ → ℚ → ℚ → ℚ → ℚ) (c p : GeoDict)
    (a : Option ℚ)
    (h1 : pvTruthy c.latitude = true → (pyNum (c.latitude.getD .vnone)).isOk = true)
    (h2 : pvTruthy c.longitude = true → (pyNum (c.longitude.getD .vnone)).isOk = true)
    (h3 : pvTruthy p.latitude = true → (pyNum (p.latitude.getD .vnone)).isOk = true)
    (h4 : pvTruthy p.longitude = true → (pyNum (p.longitude.getD .vnone)).isOk = true) :
    (geoDistancePart hav c p a).isOk = true := by
  simp only [geoDistancePart]
  split_ifs with ht
  · obtain ⟨q1, e1⟩ := exists_ok_of_isOk (h1 ht.1)
    obtain ⟨q2, e2⟩ := exists_ok_of_isOk (h2 ht.2.1)
    obtain ⟨q3, e3⟩ := exists_ok_of_isOk (h3 ht.2.2.1)
    obtain ⟨q4, e4⟩ := exists_ok_of_isOk (h4 ht.2.2.2)
    rw [e1]
    dsimp only
    rw [e2]
    dsimp only
    rw [e3]
    dsimp only
    rw [e4]
    rfl
  · rfl

theorem geo_penalty_isOk (hav : ℚ → ℚ → ℚ → ℚ → ℚ) (c p : GeoDict)
    (h1 : pvTruthy c.latitude = true → (pyNum (c.latitude.getD .vnone)).isOk = true)
    (h2 : pvTruthy c.longitude = true → (pyNum (c.longitude.getD .vnone)).isOk = true)
    (h3 : pvTruthy p.latitude = true → (pyNum (p.latitude.getD .vnone)).isOk = true)
    (h4 : pvTruthy p.longitude = true → (pyNum (p.longitude.getD .vnone)).isOk = true) :
    (geo_penalty hav c p).isOk = true := by
  simp only [geo_penalty]
  split
  · split_ifs
    · rfl
    · exact geoDistancePart_isOk hav c p _ h1 h2 h3 h4
  · exact geoDistancePart_isOk hav c p _ h1 h2 h3 h4

end FinVault

set_option allowUnsafeReducibility true
attribute [semireducible] Rat.add Rat.mul Rat.sub Rat.inv Rat.ofScientific

namespace FinVault

/-! ## Claim theorems -/

/-- C1 (amended): for every call, `score_session` returns an integer
`risk_score` in `[0, 100]`; `score_login` returns one in `[0, 104]` - the
`min(100)` clamp precedes the passive scroll/dwell additions of up to `+4` -
and both always return a level among low/medium/high. -/
theorem C1_score_bounds :
    (∀ (env : Env) (hav : ℚ → ℚ → ℚ → ℚ → ℚ) (c : Option Challenge)
      (m : Option Metrics) (p : Option Profile) (r : ScoreResult),
      score_login env hav c m p = .ok r →
      0 ≤ r.risk_score ∧ r.risk_score ≤ 104 ∧
        (r.level = "low" ∨ r.level = "medium" ∨ r.level = "high")) ∧
    (∀ (env : Env) (hav : ℚ → ℚ → ℚ → ℚ → ℚ) (t : Telemetry) (p : Option Profile)
      (r : SessionResult),
      score_session env hav t p = .ok r →
      0 ≤ r.risk_score ∧ r.risk_score ≤ 100 ∧
        (r.level = "low" ∨ r.level = "medium" ∨ r.level = "high")) := by
  constructor
  · intro env hav c m p r h
    obtain ⟨⟨h1, h2⟩, h3, _, _⟩ := score_login_ok_bounds env hav c m p r h
    exact ⟨h1, h2, h3⟩
  · intro env hav t p r h
    obtain ⟨⟨h1, h2⟩, h3⟩ := score_session_ok_bounds env hav t p r h
    exact ⟨h1, h2, h3⟩

/-- C1 witness: the bound theorem applied at a concrete login input and a
concrete session input. -/
theorem C1_score_bounds_witness :
    (0 ≤ resC4.risk_score ∧ resC4.risk_score ≤ 104 ∧
      (resC4.level = "low" ∨ resC4.level = "medium" ∨ resC4.level = "high")) ∧
    (0 ≤ sesC1.risk_score ∧ sesC1.risk_score ≤ 100 ∧
      (sesC1.level = "low" ∨ sesC1.level = "medium" ∨ sesC1.level = "high")) :=
  ⟨C1_score_bounds.1 {} havZero chC4 mC4 pC4 resC4 (eq_ok_of_toOption (by decide)),
    C1_score_bounds.2 {} havZero {} none sesC1 (eq_ok_of_toOption (by decide))⟩

/-- C1 counterexample: a login whose score is 104 > 100 (the passive tells
are added after the clamp). -/
theorem C1_counterexample :
    score_login {} havZero chC1 mC1 pC1 = .ok resC1 ∧ ¬resC1.risk_score ≤ 100 :=
  ⟨eq_ok_of_toOption (by decide), by decide⟩

/-- C7: in `score_login`, two missing critical signals force the score to at
least 45 and three to at least 65; on a concrete input with exactly the
profile and challenge missing and no other penalty, the result is exactly 45
with level medium. -/
theorem C7_escalation_floors :
    (∀ (env : Env) (hav : ℚ → ℚ → ℚ → ℚ → ℚ) (c : Option Challenge)
      (m : Option Metrics) (p : Option Profile) (r : ScoreResult),
      score_login env hav c m p = .ok r →
      (2 ≤ r.missing_signals → 45 ≤ r.risk_score) ∧
      (3 ≤ r.missing_signals → 65 ≤ r.risk_score)) ∧
    score_login {} havZero none mC7 none = .ok resC7 := by
  constructor
  · intro env hav c m p r h
    obtain ⟨_, _, h3, h4⟩ := score_login_ok_bounds env hav c m p r h
    exact ⟨h3, h4⟩
  · exact eq_ok_of_toOption (by decide)

/-- C7 witness: the floors applied at the concrete two-missing-signals
input. -/
theorem C7_escalation_floors_witness :
    2 ≤ resC7.missing_signals ∧ 45 ≤ resC7.risk_score :=
  ⟨by decide,
    (C7_escalation_floors.1 {} havZero none mC7 none resC7
      (eq_ok_of_toOption (by decide))).1 (by decide)⟩

/-- C9: `score_login` and `score_session` are deterministic - identical
challenge, metrics, profile and telemetry under the same environment and
distance model give identical results (score, level, reasons,
missing_signals). -/
theorem C9_deterministic (env : Env) (hav : ℚ → ℚ → ℚ → ℚ → ℚ)
    (c₁ c₂ : Option Challenge) (m₁ m₂ : Option Metrics) (p₁ p₂ : Option Profile)
    (t₁ t₂ : Telemetry) (hc : c₁ = c₂) (hm : m₁ = m₂) (hp : p₁ = p₂)
    (ht : t₁ = t₂) :
    score_login env hav c₁ m₁ p₁ = score_login env hav c₂ m₂ p₂ ∧
    score_session env hav t₁ p₁ = score_session env hav t₂ p₂ := by
  subst hc; subst hm; subst hp; subst ht
  exact ⟨rfl, rfl⟩

/-- C9 witness: determinism at a concrete input. -/
theorem C9_deterministic_witness :
    score_login {} havZero chC4 mC4 pC4 = score_login {} havZero chC4 mC4 pC4 ∧
    score_session {} havZero {} pC4 = score_session {} havZero {} pC4 :=
  C9_deterministic {} havZero chC4 chC4 mC4 mC4 pC4 pC4 {} {} rfl rfl rfl rfl

/-- C10: `_ip_in_prefixes` is total - a missing, empty or unparseable IP
yields `false`, an unparseable prefix entry contributes no match, and the
result is always a boolean. -/
theorem C10_ip_in_prefixes_total (ip : Option String) (prefixes : List String) :
    (_ip_in_prefixes ip prefixes = true ∨ _ip_in_prefixes ip prefixes = false) ∧
    ((ip = none ∨ ip = some "" ∨ ∀ s, ip = some s → ipAddress s = none) →
      _ip_in_prefixes ip prefixes = false) ∧
    (∀ (l₁ l₂ : List String) (q : String), ipNetwork (pyStrip q) = none →
      _ip_in_prefixes ip (l₁ ++ q :: l₂) = _ip_in_prefixes ip (l₁ ++ l₂)) := by
  refine ⟨?_, ?_, ?_⟩
  · cases hb : _ip_in_prefixes ip prefixes
    · exact Or.inr rfl
    · exact Or.inl rfl
  · intro h
    rcases ip with _ | s
    · rfl
    · rcases h with h | h | h
      · cases h
      · have hs : s = "" := by injection h
        subst hs
        rfl
      · have ha := h s rfl
        unfold _ip_in_prefixes
        dsimp only
        split_ifs with hs
        · rfl
        · rw [ha]
  · intro l₁ l₂ q hq
    rcases ip with _ | s
    · rfl
    · unfold _ip_in_prefixes
      dsimp only
      split_ifs with hs
      · rfl
      · cases ha : ipAddress s with
        | none => rfl
        | some a => simp [List.any_append, List.any_cons, hq]

/-- C10 witness: totality instantiated at an unparseable IP and an
unparseable prefix entry. -/
theorem C10_ip_in_prefixes_total_witness :
    _ip_in_prefixes (some "999.1.2.3") ["10.0.0.0/8"] = false ∧
    _ip_in_prefixes (some "203.0.113.7") (["bogus"] ++ "10.0.0.0/99" :: ["203.0.113.0/24"]) =
      _ip_in_prefixes (some "203.0.113.7") (["bogus"] ++ ["203.0.113.0/24"]) :=
  ⟨(C10_ip_in_prefixes_total (some "999.1.2.3") ["10.0.0.0/8"]).2.1
      (Or.inr (Or.inr (fun s hs => by cases hs; decide))),
    (C10_ip_in_prefixes_total (some "203.0.113.7") ["bogus", "10.0.0.0/99", "203.0.113.0/24"]).2.2
      ["bogus"] ["203.0.113.0/24"] "10.0.0.0/99" (by decide)⟩

end FinVault

namespace FinVault

/-- C4 (amended): when precise geolocation is absent or fallback,
`score_login` adds only the city-level fallback adjustment (0 to 15 points
from `_city_fallback_penalty`), with no +25 penalty; at a concrete input
whose coarse IP geo matches the baseline city, the branch fires (the reason
is recorded) yet the total score is 0. -/
theorem C4_city_fallback_only :
    (∀ (c : Option IpGeo) (p : IpGeo),
      0 ≤ (city_fallback_penalty c p).1 ∧ (city_fallback_penalty c p).1 ≤ 15) ∧
    score_login {} havZero chC4 mC4 pC4 = .ok resC4 ∧
    resC4.risk_score = 0 ∧
    "No reliable geolocation (fallback or missing)" ∈ resC4.reasons :=
  ⟨fun c p => city_fallback_penalty_bounds c p,
    eq_ok_of_toOption (by decide), rfl, by decide⟩

/-- C4 counterexample: the missing-geo branch fires on this input (the reason
is present) but the total added penalty is 0, not at least 25. -/
theorem C4_counterexample :
    score_login {} havZero chC4 mC4 pC4 = .ok resC4 ∧
    "No reliable geolocation (fallback or missing)" ∈ resC4.reasons ∧
    ¬25 ≤ resC4.risk_score :=
  ⟨eq_ok_of_toOption (by decide), by decide, by decide⟩

/-- C2: on a behaviour-signature mismatch the ingest forces the stored
session state to `{medium, 50, behavior_signature_mismatch}` and no later
step of the same ingest overwrites it: the profile load of the scoring step
is not awaited (`session_guardian.py` line 34), so `score_session` raises
`AttributeError` on the coroutine before the final state write. -/
theorem C2_mismatch_persists (env : Env) (hav : ℚ → ℚ → ℚ → ℚ → ℚ)
    (sha : String → String) (now now2 : String) (uid : ℤ) (tel : Telemetry)
    (sig : String) (st : List (String × String))
    (hsig : sig ≠ "")
    (hmism : ∀ cs,
      compute_behavior_signature sha tel.device (sessionIpPref tel.ip) = some cs →
      cs ≠ "" ∧ sig ≠ cs) :
    getField (ingest_telemetry env hav sha now now2 uid tel (some (some sig)) st).state
        "risk_level" = some "medium" ∧
    getField (ingest_telemetry env hav sha now now2 uid tel (some (some sig)) st).state
        "risk_score" = some "50" ∧
    getField (ingest_telemetry env hav sha now now2 uid tel (some (some sig)) st).state
        "reason" = some "behavior_signature_mismatch" ∧
    (ingest_telemetry env hav sha now now2 uid tel (some (some sig)) st).outcome =
      .error "AttributeError: coroutine object has no attribute get" :=
  ingest_mismatch_state env hav sha now now2 uid tel sig st hsig hmism

/-- C2 witness: the forced state persists at a concrete mismatching ingest. -/
theorem C2_mismatch_persists_witness :
    getField (ingest_telemetry {} havZero shaConst "T1" "T2" 7 {} (some (some "OTHER"))
        []).state "risk_level" = some "medium" ∧
    getField (ingest_telemetry {} havZero shaConst "T1" "T2" 7 {} (some (some "OTHER"))
        []).state "risk_score" = some "50" ∧
    getField (ingest_telemetry {} havZero shaConst "T1" "T2" 7 {} (some (some "OTHER"))
        []).state "reason" = some "behavior_signature_mismatch" ∧
    (ingest_telemetry {} havZero shaConst "T1" "T2" 7 {} (some (some "OTHER"))
        []).outcome = .error "AttributeError: coroutine object has no attribute get" :=
  C2_mismatch_persists {} havZero shaConst "T1" "T2" 7 {} "OTHER" []
    (by decide) (fun cs hc => by cases hc; exact ⟨by decide, by decide⟩)

/-- C3 (amended): `promote_known_network_if_ready` adds a prefix to
`known_networks` only when the distinct-day count within the trailing window
reaches the threshold, but the low-risk login flow additionally inserts the
derived prefix unconditionally (`$addToSet` at `auth.py` line 922), so a
prefix can enter `known_networks` without meeting the gate. -/
theorem C3_promotion_gate_and_login_bypass :
    (∀ (t uid : ℤ) (ip : Option String) (cutoff : String)
      (counters : List CounterRow) (known : List String) (pref : String),
      pref ∉ known →
      pref ∈ promote_known_network_if_ready t uid ip cutoff counters known →
      ipPrefixOf (ip.getD "") = some pref ∧
        t ≤ (distinct_days_count uid pref cutoff counters : ℤ)) ∧
    (∀ (t : ℤ) (day now pc dc : String) (uid : ℤ) (ip : Option String)
      (st : NetState) (pref : String),
      strTruthy ip = true → ipPrefixOf (ip.getD "") = some pref →
      pref ∈ (login_low_risk_network_ops t day now pc dc uid ip st).known_networks) :=
  ⟨promote_gate, login_ops_adds⟩

/-- C3 witness: the gate and the bypass at concrete inputs. -/
theorem C3_promotion_gate_witness :
    ipPrefixOf "198.51.100.7" = some "198.51.100.0/24" ∧
      (3 : ℤ) ≤ distinct_days_count 1 "198.51.100.0/24" "2026-09-12"
        [⟨1, "198.51.100.0/24", "2026-10-01", "a", "a"⟩,
         ⟨1, "198.51.100.0/24", "2026-10-02", "b", "b"⟩,
         ⟨1, "198.51.100.0/24", "2026-10-03", "c", "c"⟩] ∧
    "198.51.100.0/24" ∈ netStC3.known_networks := by
  have h1 := C3_promotion_gate_and_login_bypass.1 3 1 (some "198.51.100.7") "2026-09-12"
    [⟨1, "198.51.100.0/24", "2026-10-01", "a", "a"⟩,
     ⟨1, "198.51.100.0/24", "2026-10-02", "b", "b"⟩,
     ⟨1, "198.51.100.0/24", "2026-10-03", "c", "c"⟩] [] "198.51.100.0/24"
    (by decide) (by decide)
  have h2 := C3_promotion_gate_and_login_bypass.2 3 "2026-10-12" "2026-10-12T10:00:00"
    "2026-09-12" "2026-07-14" 1 (some "198.51.100.5") netStEmpty "198.51.100.0/24"
    (by decide) (by decide)
  exact ⟨h1.1, h1.2, h2⟩

/-- C3 counterexample: a single low-risk login from a fresh prefix puts the
prefix into `known_networks` although its distinct-day count is 1 < 3. -/
theorem C3_counterexample :
    "198.51.100.0/24" ∈ netStC3.known_networks ∧
    distinct_days_count 1 "198.51.100.0/24" "2026-09-12" netStC3.counters = 1 ∧
    ¬(3 : ℤ) ≤ (1 : ℤ) := by
  refine ⟨by decide, by decide, by decide⟩

/-- C5 (amended): the counter and promotion path does not consult privacy at
all - for a private (RFC1918/link-local/loopback) address the distinct-day
row is still recorded and the login flow still inserts the derived prefix
into `known_networks`. -/
theorem C5_private_not_excluded (t uid : ℤ) (ip : Option String)
    (day now pc dc : String) (counters : List CounterRow) (st : NetState)
    (pref : String) (h0 : ¬uid = 0) (hip : strTruthy ip = true)
    (hpref : ipPrefixOf (ip.getD "") = some pref)
    (_hpriv : isRfc1918LinkLocalLoopback (ip.getD "") = true) :
    (update_known_network_counter uid ip day now counters).any
      (fun r => r.user_id = uid ∧ r.pfx = pref ∧ r.day = day) = true ∧
    pref ∈ (login_low_risk_network_ops t day now pc dc uid ip st).known_networks :=
  ⟨counter_records uid ip day now counters pref h0 hip hpref,
    login_ops_adds t day now pc dc uid ip st pref hip hpref⟩

/-- C5 witness: the amended statement at the private address 192.168.1.5. -/
theorem C5_private_not_excluded_witness :
    (update_known_network_counter 1 (some "192.168.1.5") "2026-10-12" "T" []).any
      (fun r => r.user_id = 1 ∧ r.pfx = "192.168.1.0/24" ∧ r.day = "2026-10-12") = true ∧
    "192.168.1.0/24" ∈ netStC5.known_networks :=
  C5_private_not_excluded 3 1 (some "192.168.1.5") "2026-10-12" "T"
    "2026-09-12" "2026-07-14" [] netStEmpty "192.168.1.0/24"
    (by decide) (by decide) (by decide) (by decide)

/-- C5 counterexample: a low-risk login from the RFC1918 address 192.168.1.5
records a counter row for 192.168.1.0/24 and inserts that prefix into
`known_networks`. -/
theorem C5_counterexample :
    isRfc1918LinkLocalLoopback "192.168.1.5" = true ∧
    (update_known_network_counter 1 (some "192.168.1.5") "2026-10-12" "T" []).any
      (fun r => r.user_id = 1 ∧ r.pfx = "192.168.1.0/24" ∧ r.day = "2026-10-12") = true ∧
    "192.168.1.0/24" ∈ netStC5.known_networks := by
  refine ⟨by decide, by decide, by decide⟩

end FinVault

namespace FinVault

/-- C6 (amended): `score_login` does raise on present malformed signal
values (see the counterexample: `float()` on a non-numeric `wpm`, the click
arithmetic on a non-numeric `clicks`, `math.radians` on a truthy non-numeric
coordinate), but it returns a result whenever the challenge data's `wpm` and
`errorRate` convert under `float()`, its `path` has a length when truthy,
its `clicks` is numeric, and every truthy coordinate of the metrics geo and
of the stored geo baseline is numeric; `keystrokeTimings` needs no condition
at all - the typing-pattern sub-document passed as the profile keeps the
stored timings list empty, so `sum()` is unreachable. -/
theorem C6_no_raise_on_wellformed (env : Env) (hav : ℚ → ℚ → ℚ → ℚ → ℚ)
    (c : Option Challenge) (m : Option Metrics) (p : Option Profile)
    (hdata : ∀ ch d, c = some ch → ch.data = some d →
      (pyFloat (d.wpm.getD (.vnum 0))).isOk = true ∧
      (pyFloat (d.errorRate.getD (.vnum 0))).isOk = true ∧
      ((d.path.getD (.vlist [])).truthy = true →
        (pyLen (d.path.getD (.vlist []))).isOk = true) ∧
      (pyNum (d.clicks.getD (.vnum 0))).isOk = true)
    (hgeo :
      (pvTruthy (_normalize_metrics m).geo.latitude = true →
        (pyNum ((_normalize_metrics m).geo.latitude.getD .vnone)).isOk = true) ∧
      (pvTruthy (_normalize_metrics m).geo.longitude = true →
        (pyNum ((_normalize_metrics m).geo.longitude.getD .vnone)).isOk = true) ∧
      (pvTruthy ((p.getD {}).geo.getD {}).latitude = true →
        (pyNum (((p.getD {}).geo.getD {}).latitude.getD .vnone)).isOk = true) ∧
      (pvTruthy ((p.getD {}).geo.getD {}).longitude = true →
        (pyNum (((p.getD {}).geo.getD {}).longitude.getD .vnone)).isOk = true)) :
    (score_login env hav c m p).isOk = true := by
  simp only [score_login]
  split
  · next e heq =>
    exfalso
    split_ifs at heq with hc
    · rcases c with _ | ch
      · simp [challengeTruthy] at hc
      · rcases hd : ch.data with _ | d
        · have hok := typing_penalty_pattern_isOk ({} : ChallengeData)
            ((p.getD {}).typing_pattern) (by rfl) (by rfl)
          rw [show (some ch).getD {} = ch from rfl, hd] at heq
          rw [show (Option.getD (none : Option ChallengeData) {}) = {} from rfl] at heq
          rw [heq] at hok
          simp [Except.isOk, Except.toBool] at hok
        · have hps := hdata ch d rfl hd
          have hok := typing_penalty_pattern_isOk d
            ((p.getD {}).typing_pattern) hps.1 hps.2.1
          rw [show (some ch).getD {} = ch from rfl, hd] at heq
          rw [show (Option.getD (some d) {}) = d from rfl] at heq
          rw [heq] at hok
          simp [Except.isOk, Except.toBool] at hok
  · next st hst =>
    split
    · next e heq =>
      exfalso
      split_ifs at heq with hc
      · rcases c with _ | ch
        · simp [challengeTruthy] at hc
        · rcases hd : ch.data with _ | d
          · have hok := mouse_penalty_isOk ({} : ChallengeData)
              (mouseProfOfDynamics ((p.getD {}).mouse_dynamics))
              (by intro hx; simp [PyVal.truthy] at hx) (by rfl)
            rw [show (some ch).getD {} = ch from rfl, hd] at heq
            rw [show (Option.getD (none : Option ChallengeData) {}) = {} from rfl] at heq
            rw [heq] at hok
            simp [Except.isOk, Except.toBool] at hok
          · have hps := hdata ch d rfl hd
            have hok := mouse_penalty_isOk d
              (mouseProfOfDynamics ((p.getD {}).mouse_dynamics)) hps.2.2.1 hps.2.2.2
            rw [show (some ch).getD {} = ch from rfl, hd] at heq
            rw [show (Option.getD (some d) {}) = d from rfl] at heq
            rw [heq] at hok
            simp [Except.isOk, Except.toBool] at hok
    · next sm hsm =>
      split
      · next e heq =>
        exfalso
        split_ifs at heq with hg
        · have hok := geo_penalty_isOk hav (_normalize_metrics m).geo
            ((p.getD {}).geo.getD {}) hgeo.1 hgeo.2.1 hgeo.2.2.1 hgeo.2.2.2
          rw [heq] at hok
          simp [Except.isOk, Except.toBool] at hok
      · rfl

/-- C6 witness: a well-formed typing challenge scores without raising. -/
theorem C6_no_raise_witness : (score_login {} havZero chC6ok mC1 pC1).isOk = true :=
  C6_no_raise_on_wellformed {} havZero chC6ok mC1 pC1
    (fun ch d hch hd => by
      cases hch; cases hd
      exact ⟨by decide, by decide, by decide, by decide⟩)
    (by decide)

/-- C6 counterexample: a non-numeric `wpm` raises `ValueError` from
`float()`; a non-numeric `clicks` raises `TypeError` from the click
arithmetic; a truthy string latitude raises `TypeError` from the coordinate
conversion; yet a truthy non-list `keystrokeTimings` does not raise (the
stored timings list is empty in this call path, so `sum()` is never
reached). -/
theorem C6_counterexample :
    exceptErr (score_login {} havZero chC6 mC1 pC1) =
      some "ValueError: could not convert string to float" ∧
    (score_login {} havZero chC6m mC1 pC1).isOk = false ∧
    (score_login {} havZero none mC6g pC6g).isOk = false ∧
    (score_login {} havZero chC6list mC1 pC1).isOk = true := by
  refine ⟨by decide, by decide, by decide, by decide⟩

/-- C8: the baseline learner's EWMA update uses α = 0.3, computing
`new_mean = α·x + (1−α)·old_mean` and
`new_var = α·(x − new_mean)² + (1−α)·old_var`, seeds `(x, 1.0)` when the old
mean is null, and the stored documents carry `std = sqrt(var)` for every
dimension present in the incoming challenge. -/
theorem C8_ewma_update :
    (∀ (m v x : ℚ), ewma_update (some m) (some v) x =
      (3/10 * x + (1 - 3/10) * m,
        3/10 * (x - (3/10 * x + (1 - 3/10) * m)) ^ 2 + (1 - 3/10) * v)) ∧
    (∀ (v : Option ℚ) (x : ℚ), ewma_update none v x = (x, 1)) ∧
    (∀ (sqrtQ : ℚ → ℚ) (tb : TypingBaselinesDoc) (wpm err : ℚ) (timings : List ℚ),
      timings ≠ [] →
      (update_typing_baselines sqrtQ tb wpm err timings).wpm_mean =
          some (ewma_update tb.wpm_mean tb.wpm_var wpm).1 ∧
        (update_typing_baselines sqrtQ tb wpm err timings).wpm_var =
          some (ewma_update tb.wpm_mean tb.wpm_var wpm).2 ∧
        (update_typing_baselines sqrtQ tb wpm err timings).wpm_std =
          some (sqrtQ (ewma_update tb.wpm_mean tb.wpm_var wpm).2) ∧
        (update_typing_baselines sqrtQ tb wpm err timings).err_mean =
          some (ewma_update tb.err_mean tb.err_var err).1 ∧
        (update_typing_baselines sqrtQ tb wpm err timings).err_var =
          some (ewma_update tb.err_mean tb.err_var err).2 ∧
        (update_typing_baselines sqrtQ tb wpm err timings).err_std =
          some (sqrtQ (ewma_update tb.err_mean tb.err_var err).2) ∧
        (update_typing_baselines sqrtQ tb wpm err timings).timing_mean =
          some (ewma_update tb.timing_mean tb.timing_var
            (timings.sum / (timings.length : ℚ))).1 ∧
        (update_typing_baselines sqrtQ tb wpm err timings).timing_var =
          some (ewma_update tb.timing_mean tb.timing_var
            (timings.sum / (timings.length : ℚ))).2 ∧
        (update_typing_baselines sqrtQ tb wpm err timings).timing_std =
          some (sqrtQ (ewma_update tb.timing_mean tb.timing_var
            (timings.sum / (timings.length : ℚ))).2)) ∧
    (∀ (sqrtQ : ℚ → ℚ) (pb : PointerBaselinesDoc) (pathLen clicks : ℚ),
      (update_pointer_baselines sqrtQ pb pathLen clicks).path_len_std =
          some (sqrtQ (ewma_update pb.path_len_mean pb.path_len_var pathLen).2) ∧
        (update_pointer_baselines sqrtQ pb pathLen clicks).clicks_std =
          some (sqrtQ (ewma_update pb.clicks_mean pb.clicks_var clicks).2)) := by
  refine ⟨?_, ?_, ?_, ?_⟩
  · intro m v x
    rfl
  · intro v x
    cases v <;> rfl
  · intro sqrtQ tb wpm err timings h
    simp [update_typing_baselines, orZero_eq, h]
  · intro sqrtQ pb pathLen clicks
    simp [update_pointer_baselines, orZero_eq]

/-- C8 witness: the EWMA update instantiated on a concrete sample. -/
theorem C8_ewma_update_witness :
    (update_typing_baselines sqrtZero {} 60 (1/100) [100, 110]).wpm_mean =
      some (ewma_update (none : Option ℚ) none 60).1 ∧
    (update_typing_baselines sqrtZero {} 60 (1/100) [100, 110]).timing_var =
      some (ewma_update (none : Option ℚ) none (([100, 110] : List ℚ).sum / 2)).2 := by
  have h := (C8_ewma_update.2.2.1) sqrtZero {} 60 (1/100) [100, 110] (by decide)
  refine ⟨h.1, ?_⟩
  have h8 := h.2.2.2.2.2.2.2.1
  rw [h8]
  norm_num

end FinVault
